import Mathlib

/-!
Shallow embedding of the zeus-backend webhook / SMS pipeline.

The definitions below are translated from the JavaScript sources:
* `src/routes/webhook.js` (two concatenated variants of the SMS character
  utilities: the simplified 155-character pricing used by the controller,
  and an older encoding-dependent variant),
* `src/controllers/webhookController.js` (Xero webhook handler, invoice
  processor, SMS sender, Stripe webhook handler, phone helpers),
* `src/services/twilioService.js` (the Xero token refresher appended there),
* the Google token service (`refreshUserTokens`),
* the Mongoose schemas `ReviewRequest` and `User` (their save-time
  validation: `enum` values and `required` non-empty strings).

JavaScript conventions used throughout the model:
* a missing or empty string field is modelled as `""` (both are falsy in JS),
* money is modelled as `ℚ` (the JS numbers involved are exact multiples of
  0.25 for costs; Stripe credit amounts are decimal dollar amounts),
* external collaborators (node `crypto` HMAC / md5, the Cellcast gateway,
  the Xero REST API, Stripe signature verification) are parameters or
  oracle inputs of the model, never stubs with fixed answers,
* `JSON.parse` of a request body is modelled by the request carrying the
  parse result (`Option`), matching the raw-body middleware in `server.js`.
-/

namespace Zeus

/-! ## SMS character utilities, simplified 155-character pricing variant
(`src/routes/webhook.js`, the variant whose `calculateSMSStats` fixes
`charLimit` at 155; this is the `smsCharacterUtils` module required by
`webhookController.js`). -/

namespace SmsCharacterUtils

/-- GSM-7 basic character set (source constant `GSM_7BIT_BASIC`). -/
def GSM_7BIT_BASIC : String :=
  "@£$¥èéùìòÇ\nØø\rÅåΔ_ΦΓΛΩΠΨΣΘΞÆæßÉ !\"#¤%&\x27()*+,-./0123456789:;<=>?¡ABCDEFGHIJKLMNOPQRSTUVWXYZÄÖÑÜ§¿abcdefghijklmnopqrstuvwxyzäöñüà"

/-- GSM-7 extended character set (source constant `GSM_7BIT_EXTENDED`). -/
def GSM_7BIT_EXTENDED : String := "^\x7b\x7d\\[~]|€"

/-- Result of `detectUnicode`: the list of non-GSM characters and the
`hasUnicode` flag (the source also returns suggestions, irrelevant here). -/
structure UnicodeDetection where
  unicodeChars : List Char
  hasUnicode : Bool
  deriving Repr, DecidableEq

/-- Translation of `detectUnicode`: walks the message and collects every
character that is in neither GSM set; `hasUnicode` is true when at least one
such character exists. -/
def detectUnicode (message : String) : UnicodeDetection :=
  let unicodeChars := message.toList.filter
    (fun c => !(GSM_7BIT_BASIC.toList.contains c) && !(GSM_7BIT_EXTENDED.toList.contains c))
  { unicodeChars := unicodeChars, hasUnicode := unicodeChars.length > 0 }

/-- Result record of `calculateSMSStats`. -/
structure SMSStats where
  encoding : String
  charCount : Nat
  charLimit : Nat
  smsCount : Nat
  isValid : Bool
  maxLength : Nat
  unicodeDetection : UnicodeDetection
  deriving Repr, DecidableEq

/-- Ceiling division on naturals, the translation of JS
`Math.ceil(a / b)` for non-negative integers and positive literal `b`. -/
def jsCeilDiv (a b : Nat) : Nat := (a + b - 1) / b

/-- Translation of the simplified `calculateSMSStats`: both encoding branches
cap `maxLength` at 300 and the SMS count is `ceil(charCount / 155)` with the
`charLimit` field fixed at 155. (JS `message.length` counts UTF-16 units; the
model counts characters, which agrees on all non-astral text.) -/
def calculateSMSStats (message : String) : SMSStats :=
  let unicodeDetection := detectUnicode message
  let encoding := if unicodeDetection.hasUnicode then "Unicode" else "GSM-7"
  let maxLength := if unicodeDetection.hasUnicode then 300 else 300
  let charCount := message.length
  let smsCount := jsCeilDiv charCount 155
  let isValid := charCount ≤ maxLength
  { encoding := encoding, charCount := charCount, charLimit := 155,
    smsCount := smsCount, isValid := isValid, maxLength := maxLength,
    unicodeDetection := unicodeDetection }

/-- Result record of `calculateSMSCost`. -/
structure SMSCostResult where
  smsCount : Nat
  cost : ℚ
  stats : SMSStats
  deriving Repr, DecidableEq

/-- Translation of the simplified `calculateSMSCost`:
`ceil(charCount / 155) * $0.25`. The price 0.25 is written `Rat.divInt 25
100` — the same rational number — so that the definition evaluates inside
the kernel; `claim7_cost_calculator` states the `× 0.25` form. -/
def calculateSMSCost (message : String) : SMSCostResult :=
  let stats := calculateSMSStats message
  let smsCount := jsCeilDiv stats.charCount 155
  let cost : ℚ := Rat.divInt (25 * (smsCount : Int)) 100
  { smsCount := smsCount, cost := cost, stats := stats }

end SmsCharacterUtils

/-! ## SMS character utilities, encoding-dependent legacy variant
(the second `calculateSMSStats`/`calculateSMSCost` pair concatenated into
`src/routes/webhook.js`: Unicode messages use a 70-character limit, GSM-7
messages 160, or 153 once the escape-adjusted length exceeds 160). -/

namespace SmsCharacterUtilsLegacy

open SmsCharacterUtils (GSM_7BIT_BASIC GSM_7BIT_EXTENDED UnicodeDetection
  detectUnicode SMSStats SMSCostResult jsCeilDiv)

/-- Translation of the encoding-dependent `calculateSMSStats`. -/
def calculateSMSStats (message : String) : SMSStats :=
  let unicodeDetection := detectUnicode message
  if unicodeDetection.hasUnicode then
    let charCount := message.length
    { encoding := "Unicode", charCount := charCount, charLimit := 70,
      smsCount := jsCeilDiv charCount 70, isValid := charCount ≤ 402,
      maxLength := 402, unicodeDetection := unicodeDetection }
  else
    let escapeCount := (message.toList.filter
      (fun c => GSM_7BIT_EXTENDED.toList.contains c)).length
    let effectiveLength := message.length + escapeCount
    let charLimit := if effectiveLength > 160 then 153 else 160
    let charCount := message.length
    { encoding := "GSM-7", charCount := charCount, charLimit := charLimit,
      smsCount := jsCeilDiv charCount charLimit, isValid := charCount ≤ 918,
      maxLength := 918, unicodeDetection := unicodeDetection }

/-- Translation of the encoding-dependent `calculateSMSCost`:
`stats.smsCount * $0.25`, the price again written `Rat.divInt 25 100`. -/
def calculateSMSCost (message : String) : SMSCostResult :=
  let stats := calculateSMSStats message
  { smsCount := stats.smsCount,
    cost := (Rat.divInt (25 * (stats.smsCount : Int)) 100 : ℚ), stats := stats }

end SmsCharacterUtilsLegacy

/-! ## Small string helpers (JS `String.prototype.replace` with a string
pattern replaces only the first occurrence; `includes` is substring search;
`startsWith`/`drop` are re-implemented over character lists so that every
definition evaluates inside the kernel) -/

/-- Does the first list start with the second? -/
def listStartsWith : List Char → List Char → Bool
  | _, [] => true
  | [], _ :: _ => false
  | c :: cs, p :: ps => c = p && listStartsWith cs ps

/-- JS `String.prototype.startsWith`. -/
def strStartsWith (s p : String) : Bool := listStartsWith s.toList p.toList

/-- Drop the first `n` characters (JS `String.prototype.substring(n)`). -/
def strDrop (s : String) (n : Nat) : String := String.mk (s.toList.drop n)

/-- Replace the first occurrence of `pat` in `s` by `repl` (JS
`s.replace(pat, repl)` with string arguments). An empty pattern matches at
the start, as in JS. -/
def listReplaceFirst (s pat repl : List Char) : List Char :=
  match s with
  | [] => if listStartsWith [] pat then repl else []
  | c :: rest =>
    if listStartsWith (c :: rest) pat then repl ++ (c :: rest).drop pat.length
    else c :: listReplaceFirst rest pat repl

/-- String form of first-occurrence replacement. -/
def replaceFirst (s pat repl : String) : String :=
  String.mk (listReplaceFirst s.toList pat.toList repl.toList)

/-- Substring test (JS `String.prototype.includes`). -/
def listContainsSub : List Char → List Char → Bool
  | [], sub => sub.isEmpty
  | c :: rest, sub => listStartsWith (c :: rest) sub || listContainsSub rest sub

/-- String form of the substring test. -/
def strIncludes (s sub : String) : Bool := listContainsSub s.toList sub.toList

/-! ## Phone number helpers (`src/controllers/webhookController.js`) -/

/-- One entry of a Xero contact's `Phones` array. A missing or empty JS field
is modelled as `""` (both are falsy where the source tests them). -/
structure XeroPhone where
  PhoneNumber : String
  PhoneCountryCode : String
  PhoneAreaCode : String
  deriving Repr, DecidableEq

/-- Translation of `phone.PhoneNumber.replace(/[\s\-\(\)]/g, '')`: strip
whitespace, dashes and parentheses. (JS `\s` also matches some exotic Unicode
spaces; the model uses ASCII whitespace, which covers the inputs at issue.) -/
def cleanPhoneChars (s : String) : String :=
  String.mk (s.toList.filter (fun c => !(c.isWhitespace || c = '-' || c = '(' || c = ')')))

/-- Translation of `buildFullPhoneNumber`: the five cases of the source in
order — already `+`-prefixed (returns the cleaned string), leading `61`,
leading `0`, country/area components, bare 9-digit-position Australian
number — otherwise `null` (`none`). -/
def buildFullPhoneNumber (phone : XeroPhone) : Option String :=
  if phone.PhoneNumber = "" then none
  else
    let cleanNumber := cleanPhoneChars phone.PhoneNumber
    if strStartsWith cleanNumber "+" then some cleanNumber
    else if strStartsWith cleanNumber "61" then some ("+" ++ cleanNumber)
    else if strStartsWith cleanNumber "0" then some ("+61" ++ strDrop cleanNumber 1)
    else if phone.PhoneCountryCode ≠ "" ∨ phone.PhoneAreaCode ≠ "" then
      let cc := if phone.PhoneCountryCode ≠ "" then phone.PhoneCountryCode else "61"
      some ("+" ++ cc ++ phone.PhoneAreaCode ++
        (if strStartsWith cleanNumber "0" then strDrop cleanNumber 1 else cleanNumber))
    else if cleanNumber.length = 9 then some ("+61" ++ cleanNumber)
    else none

/-- Translation of `formatPhoneNumber`: `null` only for a falsy input;
`+`-prefixed inputs are returned verbatim; a leading `0` is replaced by
`+61`; anything else is prefixed with `+61` unconditionally. -/
def formatPhoneNumber (phoneNumber : String) : Option String :=
  if phoneNumber = "" then none
  else if strStartsWith phoneNumber "+" then some phoneNumber
  else if strStartsWith phoneNumber "0" then some ("+61" ++ strDrop phoneNumber 1)
  else some ("+61" ++ phoneNumber)

/-! ## Base64 (node `Buffer`/`digest('base64')` semantics)

`verifyXeroSignature` base64-encodes the HMAC digest and then decodes both
the received header and that expected string back to bytes with
`Buffer.from(_, 'base64')` before comparing. Node's base64 decoder is
lenient: characters outside the alphabet (including `=` padding) are
skipped, and trailing bits that do not fill a whole byte are dropped. -/

/-- The standard base64 alphabet. -/
def b64Alphabet : List Char :=
  "ABCDEFGHIJKLMNOPQRSTUVWXYZabcdefghijklmnopqrstuvwxyz0123456789+/".toList

/-- Character for a 6-bit value. -/
def b64CharOfVal (v : Nat) : Char := b64Alphabet.getD v 'A'

/-- 6-bit value of an alphabet character, `none` for anything else
(padding `=` included, which node's decoder skips). -/
def b64ValOfChar (c : Char) : Option Nat := b64Alphabet.indexOf? c

/-- RFC 4648 base64 encoding of a byte list, with `=` padding — the
behaviour of node's `digest('base64')`. -/
def b64encodeBytes : List Nat → List Char
  | x :: y :: z :: rest =>
      b64CharOfVal (x / 4) :: b64CharOfVal (x % 4 * 16 + y / 16) ::
      b64CharOfVal (y % 16 * 4 + z / 64) :: b64CharOfVal (z % 64) :: b64encodeBytes rest
  | [x, y] => [b64CharOfVal (x / 4), b64CharOfVal (x % 4 * 16 + y / 16),
      b64CharOfVal (y % 16 * 4), '=']
  | [x] => [b64CharOfVal (x / 4), b64CharOfVal (x % 4 * 16), '=', '=']
  | [] => []

/-- String form of the encoder. -/
def b64encode (bs : List Nat) : String := String.mk (b64encodeBytes bs)

/-- Decoding of a stream of 6-bit values: groups of four give three bytes,
a trailing pair gives one byte, a trailing triple gives two bytes, and a
single leftover value is dropped (its bits cannot fill a byte). -/
def b64decodeVals : List Nat → List Nat
  | a :: b :: c :: d :: rest =>
      (a * 4 + b / 16) :: (b % 16 * 16 + c / 4) :: (c % 4 * 64 + d) :: b64decodeVals rest
  | [a, b] => [a * 4 + b / 16]
  | [a, b, c] => [a * 4 + b / 16, b % 16 * 16 + c / 4]
  | _ => []

/-- Model of `Buffer.from(s, 'base64')`: skip everything outside the
alphabet, then decode the 6-bit stream. -/
def b64decode (s : String) : List Nat :=
  b64decodeVals (s.toList.filterMap b64ValOfChar)

/-- Translation of `verifyXeroSignature`. The HMAC-SHA256 primitive from
node `crypto` is a parameter `hmac` mapping `(key, rawBody)` to the digest
bytes. The source returns `false` when signature or key is falsy, computes
`expectedSignature` as the base64 string of the digest, decodes both
strings to buffers, rejects on a length mismatch and otherwise compares the
buffers (`crypto.timingSafeEqual`). The whole `try` body is wrapped so that
no input throws out of the function. -/
def verifyXeroSignature (hmac : String → String → List Nat) (rawBody : String)
    (signature : Option String) (webhookKey : Option String) : Bool :=
  match signature, webhookKey with
  | some sig, some key =>
    if sig = "" ∨ key = "" then false
    else
      let expectedSignature := b64encode (hmac key rawBody)
      let receivedBuffer := b64decode sig
      let expectedBuffer := b64decode expectedSignature
      if receivedBuffer.length ≠ expectedBuffer.length then false
      else decide (receivedBuffer = expectedBuffer)
  | _, _ => false

/-! ## The persistent data model

Mongoose runs schema validation on `save()`: an `enum` path rejects any
value outside the list, and a `required` String path rejects `null`,
`undefined` and the empty string. `User.findByIdAndUpdate` does *not* run
validators (mongoose default `runValidators: false`), which the Stripe
credit path below reflects. -/

/-- The `User` fields the pipeline touches (`src/models/User.js`).
`businessName`, `googleReviewUrl` and the template message default to
`null`/absent, modelled as `""`. -/
structure UserRec where
  smsBalance : ℚ
  totalSMSCredits : ℚ
  businessName : String
  googleReviewUrl : String
  smsTemplateMessage : String
  deriving Repr, DecidableEq

/-- A `XeroConnection` document (`src/models/XeroConnection.js` fields used
by the pipeline). -/
structure XeroConnRec where
  userId : Nat
  tenantId : String
  isActive : Bool
  accessToken : String
  refreshToken : String
  tokenExpiresAt : Nat
  deriving Repr, DecidableEq

/-- A `ReviewRequest` document (`src/models/ReviewRequest.js`). -/
structure ReviewRequestRec where
  userId : Nat
  xeroInvoiceId : String
  invoiceNumber : String
  customerName : String
  customerEmail : String
  customerPhone : Option String
  smsStatus : String
  emailStatus : String
  twilioSid : Option String
  sentAt : Option Nat
  deriving Repr, DecidableEq

/-- The `enum` list of `reviewRequestSchema.smsStatus` and `emailStatus`. -/
def smsStatusEnum : List String := ["pending", "sent", "failed", "delivered"]

/-- Mongoose save-time validation of a `ReviewRequest`: the two status
enums, and the `required` String paths `xeroInvoiceId`, `customerName`,
`customerEmail` (a `required` String rejects the empty string). -/
def validReviewRequest (r : ReviewRequestRec) : Bool :=
  smsStatusEnum.contains r.smsStatus && smsStatusEnum.contains r.emailStatus &&
  r.xeroInvoiceId ≠ "" && r.customerName ≠ "" && r.customerEmail ≠ ""

/-- The mutable world the pipeline reads and writes: the in-memory
`processedWebhooks` set (insertion order kept, as a JS `Set` does), the
durable collections, and a log of every outbound call made to the Cellcast
SMS gateway (recipient, message body). -/
structure SysState where
  processedWebhooks : List String
  users : List (Nat × UserRec)
  connections : List XeroConnRec
  reviewRequests : List ReviewRequestRec
  smsLog : List (String × String)
  deriving Repr, DecidableEq

/-- `User.findById`. -/
def findUser (s : SysState) (uid : Nat) : Option UserRec :=
  (s.users.find? (fun p => p.1 = uid)).map (·.2)

/-- Persist an updated user document (`user.save()`). -/
def updateUser (s : SysState) (uid : Nat) (u : UserRec) : SysState :=
  { s with users := s.users.map (fun p => if p.1 = uid then (uid, u) else p) }

/-- Persist an updated connection document (`connection.save()`), replacing
the stored document it came from. -/
def updateConn (s : SysState) (old new : XeroConnRec) : SysState :=
  { s with connections := s.connections.map (fun c => if c = old then new else c) }

/-! ## Invoice data as fetched from the Xero REST API -/

/-- A billing address (only the `Phone` field is read). -/
structure XeroAddress where
  Phone : String
  deriving Repr, DecidableEq

/-- The contact of an invoice. -/
structure XeroContact where
  Name : String
  EmailAddress : String
  Phones : List XeroPhone
  Phone : String
  MobilePhone : String
  Addresses : List XeroAddress
  deriving Repr, DecidableEq

/-- An invoice as returned by `GET /Invoices/{id}` (fields used). -/
structure XeroInvoice where
  Status : String
  AmountDue : ℚ
  InvoiceNumber : String
  Contact : Option XeroContact
  deriving Repr, DecidableEq

/-- The `Phones` array loop of `extractPhoneFromInvoice`: the first entry
with a truthy `PhoneNumber` for which `buildFullPhoneNumber` yields a
truthy result wins; a `null` build result falls through to later entries. -/
def firstBuiltPhone : List XeroPhone → Option String
  | [] => none
  | p :: rest =>
    if p.PhoneNumber ≠ "" then
      match buildFullPhoneNumber p with
      | some n => some n
      | none => firstBuiltPhone rest
    else firstBuiltPhone rest

/-- Translation of `extractPhoneFromInvoice`: phones array, then the direct
`Phone` field, then `MobilePhone`, then the first address with a phone. -/
def extractPhoneFromInvoice (invoice : XeroInvoice) : Option String :=
  match invoice.Contact with
  | none => none
  | some contact =>
    match firstBuiltPhone contact.Phones with
    | some n => some n
    | none =>
      if contact.Phone ≠ "" then formatPhoneNumber contact.Phone
      else if contact.MobilePhone ≠ "" then formatPhoneNumber contact.MobilePhone
      else
        match contact.Addresses.find? (fun a => a.Phone ≠ "") with
        | some a => formatPhoneNumber a.Phone
        | none => none

/-! ## `sendReviewRequestSMS` (`src/controllers/webhookController.js`) -/

/-- The default template in `sendReviewRequestSMS`
(`user.smsTemplate?.message || '...'`). -/
def defaultSmsTemplate : String :=
  "Hi {customerName}! Thanks for choosing {businessName}. We\x27d love your feedback, please feel free to leave us a {reviewUrl}"

/-- First-occurrence substitution of the three placeholders, as the source
does with three chained `String.replace` calls (no `/g` flag, so only the
first occurrence of each placeholder is replaced). -/
def renderTemplate (template customerName businessName reviewUrl : String) : String :=
  replaceFirst
    (replaceFirst (replaceFirst template "{customerName}" customerName)
      "{businessName}" businessName)
    "{reviewUrl}" reviewUrl

/-- What the Cellcast gateway would answer if called: a message id, or a
thrown error carrying a message string (as `cellcastService.sendSMS`
throws). This is oracle input, not state: the model records in
`SysState.smsLog` whether the gateway was actually contacted. -/
inductive SendOutcome where
  | ok (messageId : String)
  | err (msg : String)
  deriving Repr, DecidableEq

/-- The errors `sendReviewRequestSMS` can throw. `insufficientBalance`
models the thrown object with `code: 'INSUFFICIENT_BALANCE'`; the others
are `Error`s distinguished downstream only by their message text. -/
inductive SmsError where
  | userNotFound
  | tooLong (msg : String)
  | insufficientBalance (msg : String)
  | gateway (msg : String)
  deriving Repr, DecidableEq

/-- Translation of `sendReviewRequestSMS`: load the user, render the
template, compute cost with the simplified 155-character pricing, reject an
over-long message, reject an insufficient balance *before* contacting the
gateway, then call Cellcast (the call is logged whether it succeeds or
throws), and only on gateway success debit the computed cost and save the
user. Returns the state (the gateway-call log and any debit) together with
the result: message id and computed cost, or the thrown error. On every
error path no debit happens — the debit is strictly after a successful
send. -/
def sendReviewRequestSMS (customerPhone customerName businessName googleReviewUrl : String)
    (userId : Nat) (send : SendOutcome) (s : SysState) :
    SysState × Except SmsError (String × ℚ) :=
  match findUser s userId with
  | none => (s, Except.error SmsError.userNotFound)
  | some user =>
    let template :=
      if user.smsTemplateMessage ≠ "" then user.smsTemplateMessage else defaultSmsTemplate
    let message := renderTemplate template customerName businessName googleReviewUrl
    let res := SmsCharacterUtils.calculateSMSCost message
    if !res.stats.isValid then
      (s, Except.error (SmsError.tooLong
        ("Message too long (" ++ toString res.stats.charCount ++
          " characters). Maximum allowed: " ++ toString res.stats.maxLength ++ " characters.")))
    else if user.smsBalance < res.cost then
      (s, Except.error (SmsError.insufficientBalance "Insufficient balance."))
    else
      match send with
      | SendOutcome.err m =>
        ({ s with smsLog := s.smsLog ++ [(customerPhone, message)] },
          Except.error (SmsError.gateway m))
      | SendOutcome.ok mid =>
        let s1 := { s with smsLog := s.smsLog ++ [(customerPhone, message)] }
        let s2 := updateUser s1 userId { user with smsBalance := user.smsBalance - res.cost }
        (s2, Except.ok (mid, res.cost))

/-! ## `processInvoiceUpdate` (`src/controllers/webhookController.js`) -/

/-- Outcome of the `fetch` of the invoice from the Xero API (oracle
input): a non-ok HTTP status, or the parsed invoice body. -/
inductive FetchOutcome where
  | fail (status : Nat)
  | ok (invoice : XeroInvoice)
  deriving Repr, DecidableEq

/-- The `catch (smsError)` classification in `processInvoiceUpdate`: the
`INSUFFICIENT_BALANCE` code gets the paywall string, otherwise the error
message is probed for known Cellcast substrings, defaulting to `failed`. -/
def classifySmsError : SmsError → String
  | SmsError.insufficientBalance _ => "SMS failed - $0 balance, please top up"
  | SmsError.userNotFound => "failed"
  | SmsError.tooLong m =>
    if strIncludes m "Insufficient Cellcast credits" then "Cellcast account needs recharging"
    else if strIncludes m "invalid or expired" then "Cellcast API key issue"
    else if strIncludes m "too long" then "Message exceeded character limit"
    else "failed"
  | SmsError.gateway m =>
    if strIncludes m "Insufficient Cellcast credits" then "Cellcast account needs recharging"
    else if strIncludes m "invalid or expired" then "Cellcast API key issue"
    else if strIncludes m "too long" then "Message exceeded character limit"
    else "failed"

/-- Persisting the `ReviewRequest` built at the end of
`processInvoiceUpdate`, together with the surrounding `catch`: a record
that passes schema validation is appended; a record that fails validation
makes `save()` reject, and the `catch` block's fallback record (hardcoded
`customerEmail: ''`, and a reference to the out-of-scope `invoice`
variable) never passes validation either, so nothing is persisted. -/
def saveReviewRequestOrCatch (r : ReviewRequestRec) (s : SysState) : SysState :=
  if validReviewRequest r then { s with reviewRequests := s.reviewRequests ++ [r] }
  else s

/-- Translation of `processInvoiceUpdate`. Inputs: the wall-clock `now`
(ms), the user document and id the handler passed in, the invoice id from
the event, and the oracle outcomes of the invoice fetch and of a would-be
gateway call. Skips non-paid invoices, skips when a `sent` record for the
invoice already exists (the query is by `xeroInvoiceId` alone), falls back
to the hardcoded test number when no phone is found, sends, classifies any
send error into a status string, and attempts to persist the outcome. The
function never throws: its outer `catch` swallows everything. -/
def processInvoiceUpdate (now : Nat) (userId : Nat) (user : UserRec) (invoiceId : String)
    (fetch : FetchOutcome) (send : SendOutcome) (s : SysState) : SysState :=
  match fetch with
  | FetchOutcome.fail _ => s
  | FetchOutcome.ok invoice =>
    if invoice.Status = "PAID" ∧ invoice.AmountDue = 0 then
      if (s.reviewRequests.find?
          (fun r => r.xeroInvoiceId = invoiceId && r.smsStatus = "sent")).isSome then s
      else
        let customerPhone :=
          match extractPhoneFromInvoice invoice with
          | some p => p
          | none => "+61400803880"
        let customerName :=
          match invoice.Contact with
          | some c => if c.Name ≠ "" then c.Name else "Valued Customer"
          | none => "Valued Customer"
        let customerEmail :=
          match invoice.Contact with
          | some c => c.EmailAddress
          | none => ""
        let businessName := if user.businessName ≠ "" then user.businessName else "this business"
        let sendRes := sendReviewRequestSMS customerPhone customerName businessName
            user.googleReviewUrl userId send s
        match sendRes.2 with
        | Except.ok (mid, _cost) =>
          saveReviewRequestOrCatch
            { userId := userId, xeroInvoiceId := invoiceId,
              invoiceNumber := invoice.InvoiceNumber, customerName := customerName,
              customerEmail := customerEmail, customerPhone := some customerPhone,
              smsStatus := "sent", emailStatus := "pending",
              twilioSid := some mid, sentAt := some now } sendRes.1
        | Except.error e =>
          saveReviewRequestOrCatch
            { userId := userId, xeroInvoiceId := invoiceId,
              invoiceNumber := invoice.InvoiceNumber, customerName := customerName,
              customerEmail := customerEmail, customerPhone := some customerPhone,
              smsStatus := classifySmsError e, emailStatus := "pending",
              twilioSid := none, sentAt := none } sendRes.1
    else s

/-! ## Xero token refresh (`refreshXeroToken` / `getValidXeroConnection`,
the token-service module appended to `src/services/twilioService.js`) -/

/-- Outcome of the POST to the Xero token endpoint (oracle input):
a token body, a non-ok HTTP status (the source then throws
`Token refresh failed: <status>`), or a network error (fetch rejected). -/
inductive RefreshHttp where
  | ok (accessToken refreshToken : String) (expiresIn : Nat)
  | httpErr (status : Nat)
  | netErr (msg : String)
  deriving Repr, DecidableEq

/-- Translation of `refreshXeroToken`: on success the connection document is
updated in place with the new tokens and saved; on *any* failure the `catch`
block sets `isActive = false`, saves, and rethrows. The first component is
the document as stored after the call; the second is what the caller sees
(the refreshed connection, or the thrown error's message). -/
def refreshXeroToken (now : Nat) (outcome : RefreshHttp) (c : XeroConnRec) :
    XeroConnRec × Except String XeroConnRec :=
  match outcome with
  | RefreshHttp.ok a r ei =>
    let c1 := { c with accessToken := a, refreshToken := r, tokenExpiresAt := now + ei * 1000 }
    (c1, Except.ok c1)
  | RefreshHttp.httpErr status =>
    let c1 := { c with isActive := false }
    (c1, Except.error ("Token refresh failed: " ++ toString status))
  | RefreshHttp.netErr m =>
    let c1 := { c with isActive := false }
    (c1, Except.error m)

/-- Translation of `getValidXeroConnection`: find the active connection for
the user (throws when there is none), refresh when the token expires within
five minutes, otherwise return it untouched. Returns the state (with any
connection mutation persisted) and the result or thrown error. -/
def getValidXeroConnection (now : Nat) (outcome : RefreshHttp) (uid : Nat) (s : SysState) :
    SysState × Except String XeroConnRec :=
  match s.connections.find? (fun c => c.userId = uid && c.isActive) with
  | none => (s, Except.error "No active Xero connection found")
  | some c =>
    if c.tokenExpiresAt ≤ now + 5 * 60 * 1000 then
      let (stored, res) := refreshXeroToken now outcome c
      (updateConn s c stored, res)
    else (s, Except.ok c)

/-! ## Google token refresh (`GoogleTokenService.refreshUserTokens`) -/

/-- The Google credential fields on the `User` document. -/
structure GoogleUserRec where
  email : String
  googleAccessToken : Option String
  googleRefreshToken : Option String
  googleTokenExpiry : Option Nat
  deriving Repr, DecidableEq

/-- Outcome of the POST to Google's token endpoint (oracle input): a token
body (an empty `refreshToken` models a response without a rotated refresh
token), an OAuth error response (axios error with `response.data.error`),
or a network error without any response. -/
inductive GoogleRefreshOutcome where
  | ok (accessToken : String) (expiresIn : Nat) (refreshToken : String)
  | errorResponse (errorCode : String)
  | networkError (msg : String)
  deriving Repr, DecidableEq

/-- The `{ success, accessToken?/error? }` object `refreshUserTokens`
returns. -/
inductive GoogleRefreshResult where
  | success (accessToken : String) (expiryTime : Nat)
  | failure (error : String)
  deriving Repr, DecidableEq

/-- Translation of `refreshUserTokens`: no stored refresh token fails fast;
on success the three token fields are replaced (keeping the old refresh
token when Google did not rotate it) and saved; on an `invalid_grant` error
response all three fields are cleared and saved; any other failure returns
`success: false` without touching the document. -/
def refreshUserTokens (now : Nat) (outcome : GoogleRefreshOutcome) (u : GoogleUserRec) :
    GoogleUserRec × GoogleRefreshResult :=
  match u.googleRefreshToken with
  | none => (u, GoogleRefreshResult.failure "No refresh token available")
  | some existingRT =>
    match outcome with
    | GoogleRefreshOutcome.ok a ei r =>
      let newRT := if r ≠ "" then r else existingRT
      ({ u with
          googleAccessToken := some a
          googleRefreshToken := some newRT
          googleTokenExpiry := some (now + ei * 1000) },
        GoogleRefreshResult.success a (now + ei * 1000))
    | GoogleRefreshOutcome.errorResponse code =>
      if code = "invalid_grant" then
        ({ u with
            googleAccessToken := none
            googleRefreshToken := none
            googleTokenExpiry := none },
          GoogleRefreshResult.failure code)
      else (u, GoogleRefreshResult.failure code)
    | GoogleRefreshOutcome.networkError m => (u, GoogleRefreshResult.failure m)

/-! ## `handleXeroWebhook` (`src/controllers/webhookController.js`) -/

/-- One event of the Xero webhook payload. -/
structure XeroEvent where
  eventCategory : String
  eventType : String
  tenantId : String
  resourceId : String
  deriving Repr, DecidableEq

/-- The parsed JSON body of a Xero webhook delivery (fields read by the
handler; `lastEventSequence` is `none` when the key is absent). -/
structure XeroPayload where
  lastEventSequence : Option Nat
  events : List XeroEvent
  deriving Repr, DecidableEq

/-- An inbound request at the `/api/webhook/xero` route: the raw body
captured by the middleware in `server.js`, its JSON parse result (`none`
models an unparsable body), and the `x-xero-signature` header. -/
structure WebhookRequest where
  rawBody : String
  parsed : Option XeroPayload
  signature : Option String
  deriving Repr, DecidableEq

/-- Stand-in for `JSON.stringify(data.events || [])`: a fixed injective
serialization of the event list. Only its functional behaviour matters to
the dedup logic. -/
def serializeEvents (es : List XeroEvent) : String :=
  "[" ++ String.intercalate ","
    (es.map (fun e => "(" ++ e.eventCategory ++ "," ++ e.eventType ++ "," ++
      e.tenantId ++ "," ++ e.resourceId ++ ")")) ++ "]"

/-- Translation of `generateWebhookId`. The md5 digest from node `crypto`
is the parameter `hash`. For a parsable payload the fingerprint hashes
`` `${data.lastEventSequence || Date.now()}_${JSON.stringify(data.events)}` ``
— so a falsy (absent or zero) `lastEventSequence` makes the fingerprint
depend on the current time `now`. An unparsable payload falls back to
hashing the whole raw string. -/
def generateWebhookId (hash : String → String) (now : Nat) (raw : String)
    (parsed : Option XeroPayload) : String :=
  match parsed with
  | some d =>
    let timestamp :=
      match d.lastEventSequence with
      | some n => if n = 0 then now else n
      | none => now
    hash (toString timestamp ++ "_" ++ serializeEvents d.events)
  | none => hash raw

/-- Translation of `cleanupProcessedWebhooks`: once the set exceeds 1000
entries, keep only the most recent 500 (`Array.from(set).slice(-500)`). -/
def cleanupProcessedWebhooks (l : List String) : List String :=
  if l.length > 1000 then l.drop (l.length - 500) else l

/-- Oracle inputs for processing one event: the token-refresh outcome (if a
refresh happens), the invoice fetch outcome, and the gateway outcome. -/
structure EventEnv where
  refresh : RefreshHttp
  fetch : FetchOutcome
  send : SendOutcome
  deriving Repr, DecidableEq

/-- The event loop of `handleXeroWebhook`. Only `INVOICE` events of type
`UPDATE` or `CREATE` are considered; a missing active connection for the
event's tenant or a missing user skips the event; a throw from
`getValidXeroConnection` (no active connection cannot happen here, but a
failed refresh can) aborts the loop and propagates to the handler's
`catch`, keeping all state mutations made so far. `Except.error` carries
the state at the moment of the throw. -/
def runEvents (now : Nat) (env : Nat → EventEnv) (i : Nat) (events : List XeroEvent)
    (s : SysState) : Except SysState SysState :=
  match events with
  | [] => Except.ok s
  | e :: rest =>
    if e.eventCategory = "INVOICE" ∧ (e.eventType = "UPDATE" ∨ e.eventType = "CREATE") then
      match s.connections.find? (fun c => c.tenantId = e.tenantId && c.isActive) with
      | none => runEvents now env (i + 1) rest s
      | some conn =>
        let user? := findUser s conn.userId
        let gv := getValidXeroConnection now (env i).refresh conn.userId s
        match gv.2 with
        | Except.error _ => Except.error gv.1
        | Except.ok _validConn =>
          match user? with
          | none => runEvents now env (i + 1) rest gv.1
          | some user =>
            runEvents now env (i + 1) rest
              (processInvoiceUpdate now conn.userId user e.resourceId
                (env i).fetch (env i).send gv.1)
    else runEvents now env (i + 1) rest s

/-- The responses `handleXeroWebhook` can send. -/
inductive WebhookResponse where
  | configError
  | unauthorized
  | intentToReceive
  | duplicateIgnored
  | processed (eventsProcessed : Nat)
  | serverError
  deriving Repr, DecidableEq

/-- Translation of `handleXeroWebhook`. In source order: destructure the
parsed body (an unparsable body means `req.body` is unusable and the
`catch` answers 500), reject a missing `XERO_WEBHOOK_KEY` with 500, verify
the signature (401 on failure), acknowledge an empty event list (the
intent-to-receive handshake), compute the fingerprint and answer 200
`duplicate ignored` when it is already recorded, otherwise record it
(trimming the set) *before* running the event loop, and answer 200 with the
event count — or 500 from the `catch` when the loop throws, keeping every
mutation made up to the throw, the recorded fingerprint included. -/
def handleXeroWebhook (hmac : String → String → List Nat) (hash : String → String)
    (now : Nat) (env : Nat → EventEnv) (req : WebhookRequest) (webhookKey : Option String)
    (s : SysState) : WebhookResponse × SysState :=
  match req.parsed with
  | none => (WebhookResponse.serverError, s)
  | some payload =>
    match webhookKey with
    | none => (WebhookResponse.configError, s)
    | some key =>
      if key = "" then (WebhookResponse.configError, s)
      else if !verifyXeroSignature hmac req.rawBody req.signature (some key) then
        (WebhookResponse.unauthorized, s)
      else if payload.events.isEmpty then (WebhookResponse.intentToReceive, s)
      else
        let webhookId := generateWebhookId hash now req.rawBody (some payload)
        if s.processedWebhooks.contains webhookId then
          (WebhookResponse.duplicateIgnored, s)
        else
          let s1 := { s with
            processedWebhooks := cleanupProcessedWebhooks (s.processedWebhooks ++ [webhookId]) }
          match runEvents now env 0 payload.events s1 with
          | Except.ok s2 => (WebhookResponse.processed payload.events.length, s2)
          | Except.error s2 => (WebhookResponse.serverError, s2)

/-! ## Stripe side (`handleStripeWebhook` and `routes/stripe.js`) -/

/-- Result of `stripe.webhooks.constructEvent` (oracle input): a verified
event with its type and the metadata the credit path reads, or a signature
verification failure (the handler then answers 400). -/
inductive StripeVerify where
  | ok (eventType : String) (metadataUserId : Nat) (metadataCreditAmount : ℚ)
  | badSignature (msg : String)
  deriving Repr, DecidableEq

/-- The two responses of `handleStripeWebhook`. -/
inductive StripeResponse where
  | received
  | badRequest
  deriving Repr, DecidableEq

/-- Translation of `handleStripeWebhook`: reject a bad signature with 400;
on `checkout.session.completed` increment `smsBalance` and
`totalSMSCredits` by the metadata amount via `findByIdAndUpdate` `$inc`
(no validators run on that path — the amount is applied as-is); every
other event type is acknowledged without effect. -/
def handleStripeWebhook (v : StripeVerify) (s : SysState) : StripeResponse × SysState :=
  match v with
  | StripeVerify.badSignature _ => (StripeResponse.badRequest, s)
  | StripeVerify.ok t uid amt =>
    if t = "checkout.session.completed" then
      match findUser s uid with
      | none => (StripeResponse.received, s)
      | some u =>
        (StripeResponse.received,
          updateUser s uid { u with
            smsBalance := u.smsBalance + amt
            totalSMSCredits := u.totalSMSCredits + amt })
    else (StripeResponse.received, s)

/-- The checkout-session metadata later echoed back in the Stripe webhook. -/
structure CheckoutMetadata where
  userId : Nat
  creditAmount : ℚ
  deriving Repr, DecidableEq

/-- Translation of the `create-checkout-session` route: a top-up below the
$10 minimum is rejected (400) and no session (hence no metadata) exists;
otherwise the session's metadata carries the user id and the amount. This
is the only producer of the metadata the credit path trusts. -/
def createCheckoutSession (uid : Nat) (amount : ℚ) : Option CheckoutMetadata :=
  if amount = 0 ∨ amount < 10 then none
  else some { userId := uid, creditAmount := amount }

/-! ## Sequential executions

A sequential execution of the pipeline is a list of webhook deliveries
(Xero or Stripe), each applied to the state the previous one left. -/

/-- One inbound delivery with all its oracle inputs. -/
inductive Op where
  | xero (hmac : String → String → List Nat) (hash : String → String) (now : Nat)
      (env : Nat → EventEnv) (req : WebhookRequest) (key : Option String)
  | stripe (v : StripeVerify)

/-- Apply one delivery to the state. -/
def applyOp (s : SysState) : Op → SysState
  | Op.xero hmac hash now env req key => (handleXeroWebhook hmac hash now env req key s).2
  | Op.stripe v => (handleStripeWebhook v s).2

/-- Run a sequential execution. -/
def execOps (s : SysState) (ops : List Op) : SysState := ops.foldl applyOp s

/-- Number of `sent` outcome records for a given external invoice id. -/
def sentCountL (l : List ReviewRequestRec) (inv : String) : Nat :=
  (l.filter (fun r => r.xeroInvoiceId = inv && r.smsStatus = "sent")).length

/-- The soft uniqueness invariant: for every external invoice id, at most
one stored `ReviewRequest` has status `sent`. -/
def SentInvariant (s : SysState) : Prop := ∀ inv : String, sentCountL s.reviewRequests inv ≤ 1

/-- The balance invariant: no stored user has a negative SMS balance. -/
def BalanceInvariant (s : SysState) : Prop := ∀ p ∈ s.users, 0 ≤ p.2.smsBalance

/-- A delivery whose Stripe credit metadata (if any) was actually produced
by the `create-checkout-session` route — the only writer of that
metadata, which enforces the $10 minimum. -/
def CreditsFromCheckout : Op → Prop
  | Op.stripe (StripeVerify.ok t uid amt) =>
      t = "checkout.session.completed" →
        ∃ a : ℚ, createCheckoutSession uid a = some { userId := uid, creditAmount := amt }
  | _ => True

/-! ## Cost calculator: helper lemmas -/

/-- The simplified cost, unfolded. -/
theorem calculateSMSCost_cost_eq (m : String) :
    (SmsCharacterUtils.calculateSMSCost m).cost
      = (SmsCharacterUtils.jsCeilDiv m.length 155 : ℚ) * 0.25 := by
  show (Rat.divInt (25 * (SmsCharacterUtils.jsCeilDiv m.length 155 : Int)) 100 : ℚ) = _
  rw [Rat.divInt_eq_div]
  push_cast
  ring_nf

/-- The simplified unit count, unfolded. -/
theorem calculateSMSCost_smsCount_eq (m : String) :
    (SmsCharacterUtils.calculateSMSCost m).smsCount
      = SmsCharacterUtils.jsCeilDiv m.length 155 := rfl

/-- The `(a + 154) / 155` translation of `Math.ceil(a / 155)` agrees with
the rational ceiling. -/
theorem jsCeilDiv155_eq_ceil (n : Nat) :
    SmsCharacterUtils.jsCeilDiv n 155 = ⌈(n : ℚ) / 155⌉₊ := by
  rcases Nat.eq_zero_or_pos n with hn | hn
  · subst hn
    norm_num [SmsCharacterUtils.jsCeilDiv]
  · have hq : SmsCharacterUtils.jsCeilDiv n 155 ≠ 0 := by
      unfold SmsCharacterUtils.jsCeilDiv
      omega
    symm
    rw [Nat.ceil_eq_iff hq]
    unfold SmsCharacterUtils.jsCeilDiv at *
    constructor
    · rw [lt_div_iff₀ (by norm_num : (0 : ℚ) < 155)]
      have h : ((n + 155 - 1) / 155 - 1) * 155 < n := by omega
      exact_mod_cast h
    · rw [div_le_iff₀ (by norm_num : (0 : ℚ) < 155)]
      have h : n ≤ ((n + 155 - 1) / 155) * 155 := by omega
      exact_mod_cast h

/-- C7: for every message, the simplified calculator returns unit count
`ceil(charCount / 155)` with the 155 threshold fixed independently of the
detected encoding class, cost `unit count × $0.25`, and validity
`charCount ≤ 300`; the empty message yields unit count 0 and cost $0. -/
theorem claim7_cost_calculator (m : String) :
    (SmsCharacterUtils.calculateSMSCost m).smsCount = ⌈(m.length : ℚ) / 155⌉₊ ∧
    (SmsCharacterUtils.calculateSMSCost m).cost
      = ((SmsCharacterUtils.calculateSMSCost m).smsCount : ℚ) * 0.25 ∧
    (SmsCharacterUtils.calculateSMSStats m).charLimit = 155 ∧
    ((SmsCharacterUtils.calculateSMSStats m).isValid = true ↔ m.length ≤ 300) ∧
    (SmsCharacterUtils.calculateSMSCost "").smsCount = 0 ∧
    (SmsCharacterUtils.calculateSMSCost "").cost = 0 := by
  refine ⟨?_, ?_, rfl, ?_, rfl, ?_⟩
  · rw [calculateSMSCost_smsCount_eq, jsCeilDiv155_eq_ceil]
  · rw [calculateSMSCost_cost_eq, calculateSMSCost_smsCount_eq]
  · show decide (m.length ≤ if (SmsCharacterUtils.detectUnicode m).hasUnicode = true
        then 300 else 300) = true ↔ _
    rw [ite_self]
    simp
  · rw [calculateSMSCost_cost_eq]
    norm_num [SmsCharacterUtils.jsCeilDiv]

/-- C7 witness: the theorem instantiated at a concrete message. -/
theorem claim7_cost_calculator_witness :
    (SmsCharacterUtils.calculateSMSCost "hello").smsCount = ⌈(("hello").length : ℚ) / 155⌉₊ :=
  (claim7_cost_calculator "hello").1

/-- C8 counterexample: for the encoding-dependent variant, a 71-character
message containing one Unicode ellipsis costs $0.50 while a 100-character
GSM-7 message costs $0.25 — a longer message with a strictly smaller cost,
refuting monotonicity in message length for that variant. -/
theorem legacyCost_eq (m : String) :
    (SmsCharacterUtilsLegacy.calculateSMSCost m).cost
      = ((SmsCharacterUtilsLegacy.calculateSMSStats m).smsCount : ℚ) * 0.25 := by
  show (Rat.divInt (25 * ((SmsCharacterUtilsLegacy.calculateSMSStats m).smsCount : Int)) 100 : ℚ)
      = _
  rw [Rat.divInt_eq_div]
  push_cast
  ring_nf

theorem claim8_counterexample :
    (String.mk (List.replicate 70 'a' ++ ['…'])).length
        ≤ (String.mk (List.replicate 100 'a')).length ∧
    (SmsCharacterUtilsLegacy.calculateSMSCost (String.mk (List.replicate 100 'a'))).cost
      < (SmsCharacterUtilsLegacy.calculateSMSCost
          (String.mk (List.replicate 70 'a' ++ ['…']))).cost := by
  have h1 : (SmsCharacterUtilsLegacy.calculateSMSStats
      (String.mk (List.replicate 100 'a'))).smsCount = 1 := by decide
  have h2 : (SmsCharacterUtilsLegacy.calculateSMSStats
      (String.mk (List.replicate 70 'a' ++ ['…']))).smsCount = 2 := by decide
  refine ⟨by decide, ?_⟩
  rw [legacyCost_eq, legacyCost_eq, h1, h2]
  norm_num

/-- C8 amended: the simplified 155-character cost function — the one the
send path uses — is monotone in message length; the encoding-dependent
legacy variant is not (see the counterexample). -/
theorem claim8_amended_simplified_cost_monotone (m1 m2 : String)
    (h : m1.length ≤ m2.length) :
    (SmsCharacterUtils.calculateSMSCost m1).cost
      ≤ (SmsCharacterUtils.calculateSMSCost m2).cost := by
  rw [calculateSMSCost_cost_eq, calculateSMSCost_cost_eq]
  have hmono : SmsCharacterUtils.jsCeilDiv m1.length 155
      ≤ SmsCharacterUtils.jsCeilDiv m2.length 155 := by
    unfold SmsCharacterUtils.jsCeilDiv
    exact Nat.div_le_div_right (by omega)
  have hc : (SmsCharacterUtils.jsCeilDiv m1.length 155 : ℚ)
      ≤ (SmsCharacterUtils.jsCeilDiv m2.length 155 : ℚ) := by exact_mod_cast hmono
  nlinarith [hc]

/-- C8 witness: monotonicity applied at two concrete messages. -/
theorem claim8_amended_witness :
    ("a").length ≤ ("ab").length ∧
    (SmsCharacterUtils.calculateSMSCost "a").cost
      ≤ (SmsCharacterUtils.calculateSMSCost "ab").cost :=
  ⟨by decide, claim8_amended_simplified_cost_monotone "a" "ab" (by decide)⟩

/-! ## Phone normalizer: C9 -/

/-- C9 counterexample: letters-only inputs do not return `null`:
`formatPhoneNumber` prefixes `+61` to any input not starting with `+` or
`0`, and `buildFullPhoneNumber` does the same to any cleaned 9-character
input, letters included. -/
theorem claim9_counterexample :
    formatPhoneNumber "abc" = some "+61abc" ∧
    buildFullPhoneNumber
        { PhoneNumber := "abcdefghi", PhoneCountryCode := "", PhoneAreaCode := "" }
      = some "+61abcdefghi" := by
  constructor
  · decide
  · decide

/-- C9 amended: both normalizers are total (they never throw). The empty
input gives `null` in both. `formatPhoneNumber` returns a `+`-prefixed
input verbatim, and otherwise always guesses `+61<input>` (minus a leading
trunk zero) — it returns `null` only for the empty string.
`buildFullPhoneNumber` returns the cleaned input when it is `+`-prefixed,
and returns `null` for an input matching none of its rules only when the
cleaned digits also fail the 9-character fallback. -/
theorem claim9_amended_phone_normalizer (p : String) (ph : XeroPhone) :
    (formatPhoneNumber "" = none) ∧
    (ph.PhoneNumber = "" → buildFullPhoneNumber ph = none) ∧
    (p ≠ "" → strStartsWith p "+" → formatPhoneNumber p = some p) ∧
    (p ≠ "" → ¬strStartsWith p "+" → ¬strStartsWith p "0" →
      formatPhoneNumber p = some ("+61" ++ p)) ∧
    (ph.PhoneNumber ≠ "" → strStartsWith (cleanPhoneChars ph.PhoneNumber) "+" →
      buildFullPhoneNumber ph = some (cleanPhoneChars ph.PhoneNumber)) ∧
    (ph.PhoneNumber ≠ "" →
      ¬strStartsWith (cleanPhoneChars ph.PhoneNumber) "+" →
      ¬strStartsWith (cleanPhoneChars ph.PhoneNumber) "61" →
      ¬strStartsWith (cleanPhoneChars ph.PhoneNumber) "0" →
      ph.PhoneCountryCode = "" → ph.PhoneAreaCode = "" →
      (cleanPhoneChars ph.PhoneNumber).length ≠ 9 →
      buildFullPhoneNumber ph = none) := by
  refine ⟨rfl, ?_, ?_, ?_, ?_, ?_⟩
  · intro h
    simp [buildFullPhoneNumber, h]
  · intro h1 h2
    simp [formatPhoneNumber, h1, h2]
  · intro h1 h2 h3
    simp [formatPhoneNumber, h1, h2, h3]
  · intro h1 h2
    simp [buildFullPhoneNumber, h1, h2]
  · intro h1 h2 h3 h4 h5 h6 h7
    simp [buildFullPhoneNumber, h1, h2, h3, h4, h5, h6, h7]

/-- C9 witness: the amended theorem applied at concrete inputs. -/
theorem claim9_amended_witness :
    formatPhoneNumber "+61400803880" = some "+61400803880" ∧
    buildFullPhoneNumber
        { PhoneNumber := "zz", PhoneCountryCode := "", PhoneAreaCode := "" }
      = none :=
  ⟨(claim9_amended_phone_normalizer "+61400803880"
      { PhoneNumber := "zz", PhoneCountryCode := "", PhoneAreaCode := "" }).2.2.1
        (by decide) (by decide),
    (claim9_amended_phone_normalizer "+61400803880"
      { PhoneNumber := "zz", PhoneCountryCode := "", PhoneAreaCode := "" }).2.2.2.2.2
        (by decide) (by decide) (by decide) (by decide) rfl rfl (by decide)⟩

/-! ## Credential refresh: C6 -/

/-- A concrete active Xero connection used in the C6 statements. -/
def sampleConn : XeroConnRec :=
  { userId := 1, tenantId := "t", isActive := true, accessToken := "a", refreshToken := "r", tokenExpiresAt := 0 }

/-- A concrete Google credential used in the C6 statements. -/
def sampleGoogleUser : GoogleUserRec :=
  { email := "a@b.c", googleAccessToken := some "at", googleRefreshToken := some "rt", googleTokenExpiry := some 10 }

/-- C6 counterexample: an HTTP 500 from the token endpoint — a transient
failure — makes the Xero refresher mark the stored connection inactive,
mutating the stored credential, contrary to the claim that transient
failures leave the connection active and unchanged. -/
theorem claim6_counterexample :
    ((refreshXeroToken 0 (RefreshHttp.httpErr 500) sampleConn).1).isActive = false ∧
    (refreshXeroToken 0 (RefreshHttp.httpErr 500) sampleConn).1 ≠ sampleConn := by
  constructor
  · rfl
  · decide

/-- C6 amended: the Google refresher behaves as the claim says — a
non-`invalid_grant` error response or a network error surfaces the failure
to the caller without mutating the stored credential, and exactly
`invalid_grant` clears the secrets. The Xero refresher does not: every
refresh failure, transient HTTP and network errors included, marks the
stored connection inactive (tokens not cleared) and throws. -/
theorem claim6_amended_refresh_failure_behavior (now : Nat) (u : GoogleUserRec)
    (rt code m : String) (c : XeroConnRec) (st : Nat)
    (hrt : u.googleRefreshToken = some rt) (hcode : code ≠ "invalid_grant") :
    refreshUserTokens now (GoogleRefreshOutcome.errorResponse code) u
      = (u, GoogleRefreshResult.failure code) ∧
    refreshUserTokens now (GoogleRefreshOutcome.networkError m) u
      = (u, GoogleRefreshResult.failure m) ∧
    (refreshUserTokens now (GoogleRefreshOutcome.errorResponse "invalid_grant") u).1
      = { u with
          googleAccessToken := none
          googleRefreshToken := none
          googleTokenExpiry := none } ∧
    (refreshXeroToken now (RefreshHttp.httpErr st) c).1 = { c with isActive := false } ∧
    (refreshXeroToken now (RefreshHttp.netErr m) c).1 = { c with isActive := false } ∧
    (∃ e, (refreshXeroToken now (RefreshHttp.httpErr st) c).2 = Except.error e) ∧
    (∃ e, (refreshXeroToken now (RefreshHttp.netErr m) c).2 = Except.error e) := by
  refine ⟨?_, ?_, ?_, rfl, rfl, ⟨_, rfl⟩, ⟨_, rfl⟩⟩
  · simp [refreshUserTokens, hrt, hcode]
  · simp [refreshUserTokens, hrt]
  · simp [refreshUserTokens, hrt]

/-- C6 witness: the amended theorem applied at a concrete credential and
outcomes. -/
theorem claim6_amended_witness :
    refreshUserTokens 0 (GoogleRefreshOutcome.errorResponse "server_error") sampleGoogleUser
      = (sampleGoogleUser, GoogleRefreshResult.failure "server_error") :=
  (claim6_amended_refresh_failure_behavior 0 sampleGoogleUser
    "rt" "server_error" "timeout" sampleConn 500 rfl (by decide)).1

/-! ## Invoice paywall path: C1

The scenario of the claim: a paid invoice event for an account with a $0
balance and a resolvable customer phone. The model shows that no gateway
call happens and the balance stays $0 — but also that *no* `ReviewRequest`
is persisted at all: the controller's paywall status string
`SMS failed - $0 balance, please top up` is not in the schema's `smsStatus`
enum, so `save()` rejects it, and the `catch` fallback record (hardcoded
empty `customerEmail`, a `required` path) is rejected too. -/

/-- The account of the C1 scenario: $0 balance. -/
def paywallUser : UserRec :=
  { smsBalance := 0, totalSMSCredits := 0, businessName := "Acme Plumbing", googleReviewUrl := "https://g.page/acme/review", smsTemplateMessage := "" }

/-- The fetched paid invoice of the C1 scenario, with a contact phone and
email. -/
def paywallInvoice : XeroInvoice :=
  { Status := "PAID", AmountDue := 0, InvoiceNumber := "INV-0001",
    Contact := some { Name := "Jane Citizen", EmailAddress := "jane@example.com", Phones := [], Phone := "0400 803 880", MobilePhone := "", Addresses := [] } }

/-- The starting state of the C1 scenario. -/
def paywallState : SysState :=
  { processedWebhooks := [], users := [(1, paywallUser)], connections := [],
    reviewRequests := [], smsLog := [] }

set_option maxRecDepth 40000 in
/-- C1: on a paid-invoice event with balance $0, processing makes no call
to the SMS gateway and leaves the balance at $0 — but the persisted outcome
record the claim requires never appears: the paywall status string the
controller chooses is rejected by the `ReviewRequest` schema enum, the
fallback error record fails validation as well (its `customerEmail` is the
empty string on a `required` path), and the state is left entirely
unchanged, with no `OutcomeRecord` of any kind. -/
theorem claim1_paywall_persists_no_record :
    processInvoiceUpdate 0 1 paywallUser "inv-1" (FetchOutcome.ok paywallInvoice)
        (SendOutcome.ok "mid") paywallState = paywallState ∧
    (processInvoiceUpdate 0 1 paywallUser "inv-1" (FetchOutcome.ok paywallInvoice)
        (SendOutcome.ok "mid") paywallState).smsLog = [] ∧
    (processInvoiceUpdate 0 1 paywallUser "inv-1" (FetchOutcome.ok paywallInvoice)
        (SendOutcome.ok "mid") paywallState).reviewRequests = [] ∧
    findUser (processInvoiceUpdate 0 1 paywallUser "inv-1" (FetchOutcome.ok paywallInvoice)
        (SendOutcome.ok "mid") paywallState) 1 = some paywallUser ∧
    classifySmsError (SmsError.insufficientBalance "Insufficient balance.")
      = "SMS failed - $0 balance, please top up" ∧
    smsStatusEnum.contains "SMS failed - $0 balance, please top up" = false := by
  refine ⟨?_, ?_, ?_, ?_, rfl, rfl⟩
  · decide
  · decide
  · decide
  · decide

/-! ## Base64 round trip and signature verification: C3 -/

/-- Decoding inverts encoding on 6-bit values. -/
theorem b64_val_char : ∀ v : Nat, v < 64 → b64ValOfChar (b64CharOfVal v) = some v := by
  decide

/-- The padding character carries no value. -/
theorem b64_val_eq_char : b64ValOfChar '=' = none := by decide

/-- Base64 decoding inverts base64 encoding on byte lists. -/
theorem b64decodeVals_encode (bs : List Nat) :
    (∀ b ∈ bs, b < 256) →
      b64decodeVals ((b64encodeBytes bs).filterMap b64ValOfChar) = bs := by
  induction bs using b64encodeBytes.induct with
  | case1 x y z rest ih =>
    intro h
    have hx : x < 256 := h x (by simp)
    have hy : y < 256 := h y (by simp)
    have hz : z < 256 := h z (by simp)
    have e1 : b64ValOfChar (b64CharOfVal (x / 4)) = some (x / 4) :=
      b64_val_char _ (by omega)
    have e2 : b64ValOfChar (b64CharOfVal (x % 4 * 16 + y / 16))
        = some (x % 4 * 16 + y / 16) := b64_val_char _ (by omega)
    have e3 : b64ValOfChar (b64CharOfVal (y % 16 * 4 + z / 64))
        = some (y % 16 * 4 + z / 64) := b64_val_char _ (by omega)
    have e4 : b64ValOfChar (b64CharOfVal (z % 64)) = some (z % 64) :=
      b64_val_char _ (by omega)
    rw [b64encodeBytes]
    simp only [List.filterMap_cons, e1, e2, e3, e4]
    rw [b64decodeVals]
    rw [ih (fun b hb => h b (by simp [hb]))]
    simp only [List.cons.injEq]
    refine ⟨by omega, by omega, by omega, trivial⟩
  | case2 x y =>
    intro h
    have hx : x < 256 := h x (by simp)
    have hy : y < 256 := h y (by simp)
    have e1 : b64ValOfChar (b64CharOfVal (x / 4)) = some (x / 4) :=
      b64_val_char _ (by omega)
    have e2 : b64ValOfChar (b64CharOfVal (x % 4 * 16 + y / 16))
        = some (x % 4 * 16 + y / 16) := b64_val_char _ (by omega)
    have e3 : b64ValOfChar (b64CharOfVal (y % 16 * 4)) = some (y % 16 * 4) :=
      b64_val_char _ (by omega)
    rw [b64encodeBytes]
    simp only [List.filterMap_cons, e1, e2, e3, b64_val_eq_char, List.filterMap_nil]
    rw [b64decodeVals]
    simp only [List.cons.injEq]
    refine ⟨by omega, by omega, trivial⟩
  | case3 x =>
    intro h
    have hx : x < 256 := h x (by simp)
    have e1 : b64ValOfChar (b64CharOfVal (x / 4)) = some (x / 4) :=
      b64_val_char _ (by omega)
    have e2 : b64ValOfChar (b64CharOfVal (x % 4 * 16)) = some (x % 4 * 16) :=
      b64_val_char _ (by omega)
    rw [b64encodeBytes]
    simp only [List.filterMap_cons, e1, e2, b64_val_eq_char, List.filterMap_nil]
    rw [b64decodeVals]
    simp only [List.cons.injEq]
    refine ⟨by omega, trivial⟩
  | case4 => intro _; rfl

/-- String-level round trip. -/
theorem b64decode_encode (bs : List Nat) (h : ∀ b ∈ bs, b < 256) :
    b64decode (b64encode bs) = bs :=
  b64decodeVals_encode bs h

/-- Encoding a nonempty byte list yields a nonempty string. -/
theorem b64encode_ne_empty (bs : List Nat) (h : bs ≠ []) : b64encode bs ≠ "" := by
  rcases bs with _ | ⟨x, _ | ⟨y, _ | ⟨z, rest⟩⟩⟩
  · exact absurd rfl h
  all_goals
    intro hc
    have hdata := congrArg String.data hc
    simp [b64encode, b64encodeBytes] at hdata

/-- C3 counterexample: a signature header that differs from the canonical
base64 encoding of the digest still verifies `true`, because the comparison
is made on decoded buffers and node's decoder drops the two trailing bits
of the final symbol: for a 32-zero-byte digest the canonical header is 43
`A`s and `=`, yet 42 `A`s, a `B` and `=` decodes to the same bytes. So
verification does not return true *exactly when* the header equals the
base64-encoded HMAC. -/
theorem claim3_counterexample :
    verifyXeroSignature (fun _ _ => List.replicate 32 0) "body"
        (some "AAAAAAAAAAAAAAAAAAAAAAAAAAAAAAAAAAAAAAAAAAB=") (some "key") = true ∧
    "AAAAAAAAAAAAAAAAAAAAAAAAAAAAAAAAAAAAAAAAAAB="
      ≠ b64encode ((fun (_ _ : String) => List.replicate 32 0) "key" "body") := by
  constructor
  · decide
  · decide

/-- C3 amended: verification returns true exactly when the header
base64-*decodes* to the HMAC digest of the raw body. In particular the
canonical base64 encoding of the digest verifies true (completeness);
any accepted header decodes to the digest (soundness); a missing or empty
signature or key verifies false and no input throws (the function is
total); and a failed verification makes the handler answer 401 with the
state untouched and no event processed. -/
theorem claim3_amended_signature_verification
    (hmac : String → String → List Nat) (key body sig : String)
    (hkey : key ≠ "")
    (hbytes : ∀ b ∈ hmac key body, b < 256)
    (hne : hmac key body ≠ []) :
    verifyXeroSignature hmac body (some (b64encode (hmac key body))) (some key) = true ∧
    (verifyXeroSignature hmac body (some sig) (some key) = true →
      b64decode sig = hmac key body) ∧
    verifyXeroSignature hmac body none (some key) = false ∧
    verifyXeroSignature hmac body (some sig) none = false ∧
    verifyXeroSignature hmac body (some "") (some key) = false ∧
    (∀ (hash : String → String) (now : Nat) (env : Nat → EventEnv) (req : WebhookRequest)
        (payload : XeroPayload) (s : SysState),
      req.parsed = some payload →
      verifyXeroSignature hmac req.rawBody req.signature (some key) = false →
      handleXeroWebhook hmac hash now env req (some key) s
        = (WebhookResponse.unauthorized, s)) := by
  have hrt : b64decode (b64encode (hmac key body)) = hmac key body :=
    b64decode_encode _ hbytes
  have hnz : ¬(b64encode (hmac key body) = "" ∨ key = "") := by
    rintro (h1 | h1)
    · exact b64encode_ne_empty _ hne h1
    · exact hkey h1
  refine ⟨?_, ?_, rfl, ?_, ?_, ?_⟩
  · show (if b64encode (hmac key body) = "" ∨ key = "" then false
      else if (b64decode (b64encode (hmac key body))).length
          ≠ (b64decode (b64encode (hmac key body))).length then false
      else decide (b64decode (b64encode (hmac key body))
          = b64decode (b64encode (hmac key body)))) = true
    rw [if_neg hnz]
    simp
  · intro hv
    by_cases hs : sig = "" ∨ key = ""
    · exact absurd hv (by
        show ¬(if sig = "" ∨ key = "" then false
          else if (b64decode sig).length ≠ (b64decode (b64encode (hmac key body))).length
            then false
          else decide (b64decode sig = b64decode (b64encode (hmac key body)))) = true
        rw [if_pos hs]
        simp)
    · replace hv : (if (b64decode sig).length ≠ (b64decode (b64encode (hmac key body))).length
          then false
          else decide (b64decode sig = b64decode (b64encode (hmac key body)))) = true := by
        rw [show verifyXeroSignature hmac body (some sig) (some key)
            = (if sig = "" ∨ key = "" then false
              else if (b64decode sig).length ≠ (b64decode (b64encode (hmac key body))).length
                then false
              else decide (b64decode sig = b64decode (b64encode (hmac key body)))) from rfl,
          if_neg hs] at hv
        exact hv
      by_cases hl : (b64decode sig).length ≠ (b64decode (b64encode (hmac key body))).length
      · rw [if_pos hl] at hv
        exact absurd hv (by simp)
      · rw [if_neg hl] at hv
        rw [← hrt]
        exact of_decide_eq_true hv
  · rfl
  · show (if ("" : String) = "" ∨ key = "" then false
      else if (b64decode "").length ≠ (b64decode (b64encode (hmac key body))).length then false
      else decide (b64decode "" = b64decode (b64encode (hmac key body)))) = false
    rw [if_pos (Or.inl rfl)]
  · intro hash now env req payload s hp hv
    simp [handleXeroWebhook, hp, hv, hkey]

/-- C3 witness: the amended theorem applied at a concrete digest function,
key and body — the canonical encoding of the digest verifies true. -/
theorem claim3_amended_witness :
    verifyXeroSignature (fun _ _ => [0]) "body" (some (b64encode [0])) (some "k") = true :=
  (claim3_amended_signature_verification (fun _ _ => [0]) "k" "body" "sig"
    (by decide) (by decide) (by decide)).1

/-! ## State-component preservation lemmas

Each step of the pipeline touches only some components of `SysState`; these
lemmas record which. -/

/-- Collapse an `Except`-carried state (a thrown state or a returned one). -/
def exceptState : Except SysState SysState → SysState
  | Except.ok s => s
  | Except.error s => s

/-- The SMS sender only touches the gateway log and the user documents. -/
theorem sendSMS_parts (a b c d : String) (uid : Nat) (send : SendOutcome) (s : SysState) :
    ((sendReviewRequestSMS a b c d uid send s).1).processedWebhooks = s.processedWebhooks ∧
    ((sendReviewRequestSMS a b c d uid send s).1).connections = s.connections ∧
    ((sendReviewRequestSMS a b c d uid send s).1).reviewRequests = s.reviewRequests := by
  simp only [sendReviewRequestSMS]
  repeat' split
  all_goals exact ⟨rfl, rfl, rfl⟩

/-- Persisting a review request only touches the review-request collection. -/
theorem saveOrCatch_parts (r : ReviewRequestRec) (s : SysState) :
    (saveReviewRequestOrCatch r s).processedWebhooks = s.processedWebhooks ∧
    (saveReviewRequestOrCatch r s).connections = s.connections ∧
    (saveReviewRequestOrCatch r s).users = s.users ∧
    (saveReviewRequestOrCatch r s).smsLog = s.smsLog := by
  unfold saveReviewRequestOrCatch
  split <;> exact ⟨rfl, rfl, rfl, rfl⟩

/-- The invoice processor never touches the dedup set or the connections. -/
theorem processInvoiceUpdate_parts (now uid : Nat) (user : UserRec) (invId : String)
    (fetch : FetchOutcome) (send : SendOutcome) (s : SysState) :
    (processInvoiceUpdate now uid user invId fetch send s).processedWebhooks
        = s.processedWebhooks ∧
    (processInvoiceUpdate now uid user invId fetch send s).connections = s.connections := by
  simp only [processInvoiceUpdate]
  split
  · exact ⟨rfl, rfl⟩
  · split
    · split
      · exact ⟨rfl, rfl⟩
      · split
        · exact ⟨(saveOrCatch_parts _ _).1.trans (sendSMS_parts _ _ _ _ _ _ _).1,
            ((saveOrCatch_parts _ _).2.1).trans (sendSMS_parts _ _ _ _ _ _ _).2.1⟩
        · exact ⟨(saveOrCatch_parts _ _).1.trans (sendSMS_parts _ _ _ _ _ _ _).1,
            ((saveOrCatch_parts _ _).2.1).trans (sendSMS_parts _ _ _ _ _ _ _).2.1⟩
    · exact ⟨rfl, rfl⟩

/-- Fetching a valid connection only touches the connection documents. -/
theorem getValid_parts (now : Nat) (o : RefreshHttp) (uid : Nat) (s : SysState) :
    ((getValidXeroConnection now o uid s).1).processedWebhooks = s.processedWebhooks ∧
    ((getValidXeroConnection now o uid s).1).users = s.users ∧
    ((getValidXeroConnection now o uid s).1).reviewRequests = s.reviewRequests ∧
    ((getValidXeroConnection now o uid s).1).smsLog = s.smsLog := by
  simp only [getValidXeroConnection, refreshXeroToken]
  repeat' split
  all_goals exact ⟨rfl, rfl, rfl, rfl⟩

/-- The event loop never touches the dedup set. -/
theorem runEvents_processedWebhooks (now : Nat) (env : Nat → EventEnv) :
    ∀ (events : List XeroEvent) (i : Nat) (s : SysState),
      (exceptState (runEvents now env i events s)).processedWebhooks
        = s.processedWebhooks := by
  intro events
  induction events with
  | nil => intro i s; rfl
  | cons e rest ih =>
    intro i s
    simp only [runEvents]
    split
    · split
      · exact ih (i + 1) s
      · split
        · exact (getValid_parts now (env i).refresh _ s).1
        · split
          · rw [ih (i + 1) _]
            exact (getValid_parts now (env i).refresh _ s).1
          · rw [ih (i + 1) _]
            rw [(processInvoiceUpdate_parts _ _ _ _ _ _ _).1]
            exact (getValid_parts now (env i).refresh _ s).1
    · exact ih (i + 1) s

/-! ## Webhook deduplication: C4 and C10 -/

/-- An appended fingerprint survives the bounded-set trim: `cleanup` keeps
the most recent 500 entries and the fingerprint was just appended. -/
theorem mem_cleanup_append (l : List String) (a : String) :
    a ∈ cleanupProcessedWebhooks (l ++ [a]) := by
  unfold cleanupProcessedWebhooks
  split
  · rw [List.drop_append_eq_append_drop]
    refine List.mem_append_right _ ?_
    have hz : (l ++ [a]).length - 500 - l.length = 0 := by
      simp only [List.length_append, List.length_cons, List.length_nil]
      omega
    rw [hz]
    simp
  · simp

/-- When a payload carries a truthy (present, nonzero) `lastEventSequence`,
its fingerprint does not depend on the current time. -/
theorem generateWebhookId_time_independent (hash : String → String) (raw : String)
    (payload : XeroPayload) (n : Nat) (hseq : payload.lastEventSequence = some n)
    (hn : n ≠ 0) (now now' : Nat) :
    generateWebhookId hash now raw (some payload)
      = generateWebhookId hash now' raw (some payload) := by
  simp [generateWebhookId, hseq, hn]

/-- On a fresh (non-duplicate) delivery that reaches event processing, the
fingerprint is recorded in the dedup set — before the loop runs, and kept
there whether the loop returns normally or throws. -/
theorem handleXero_records_fingerprint (hmac : String → String → List Nat)
    (hash : String → String) (now : Nat) (env : Nat → EventEnv) (req : WebhookRequest)
    (key : String) (s : SysState) (payload : XeroPayload)
    (hp : req.parsed = some payload) (hkey : key ≠ "")
    (hsig : verifyXeroSignature hmac req.rawBody req.signature (some key) = true)
    (hev : payload.events.isEmpty = false)
    (hnew : s.processedWebhooks.contains
      (generateWebhookId hash now req.rawBody (some payload)) = false) :
    (handleXeroWebhook hmac hash now env req (some key) s).2.processedWebhooks
      = cleanupProcessedWebhooks (s.processedWebhooks
          ++ [generateWebhookId hash now req.rawBody (some payload)]) := by
  simp only [handleXeroWebhook, hp, hkey, hsig, hev, hnew, Bool.not_true,
    Bool.false_eq_true, if_false, ite_false]
  split
  · rename_i s2 heq
    have h := runEvents_processedWebhooks now env payload.events 0
      { s with processedWebhooks := cleanupProcessedWebhooks (s.processedWebhooks
          ++ [generateWebhookId hash now req.rawBody (some payload)]) }
    rw [heq] at h
    exact h
  · rename_i s2 heq
    have h := runEvents_processedWebhooks now env payload.events 0
      { s with processedWebhooks := cleanupProcessedWebhooks (s.processedWebhooks
          ++ [generateWebhookId hash now req.rawBody (some payload)]) }
    rw [heq] at h
    exact h

/-- A redelivery whose fingerprint is already recorded is answered with the
duplicate response and changes nothing. -/
theorem handleXero_duplicate (hmac : String → String → List Nat) (hash : String → String)
    (now : Nat) (env : Nat → EventEnv) (req : WebhookRequest) (key : String) (s : SysState)
    (payload : XeroPayload)
    (hp : req.parsed = some payload) (hkey : key ≠ "")
    (hsig : verifyXeroSignature hmac req.rawBody req.signature (some key) = true)
    (hev : payload.events.isEmpty = false)
    (hdup : s.processedWebhooks.contains
      (generateWebhookId hash now req.rawBody (some payload)) = true) :
    handleXeroWebhook hmac hash now env req (some key) s
      = (WebhookResponse.duplicateIgnored, s) := by
  simp only [handleXeroWebhook, hp, hkey, hev, hsig, hdup, Bool.not_true,
    Bool.false_eq_true, if_false, ite_false, if_true, ite_true]

/-- Identical redelivery of a truthy-sequence payload is recognized: helper
shared by the C4 and C10 statements. -/
theorem second_delivery_duplicate (hmac : String → String → List Nat)
    (hash : String → String) (now1 now2 : Nat) (env1 env2 : Nat → EventEnv)
    (req : WebhookRequest) (key : String) (s : SysState) (payload : XeroPayload) (n : Nat)
    (hp : req.parsed = some payload) (hkey : key ≠ "")
    (hsig : verifyXeroSignature hmac req.rawBody req.signature (some key) = true)
    (hev : payload.events.isEmpty = false)
    (hseq : payload.lastEventSequence = some n) (hn : n ≠ 0)
    (hnew : s.processedWebhooks.contains
      (generateWebhookId hash now1 req.rawBody (some payload)) = false) :
    handleXeroWebhook hmac hash now2 env2 req (some key)
        (handleXeroWebhook hmac hash now1 env1 req (some key) s).2
      = (WebhookResponse.duplicateIgnored,
          (handleXeroWebhook hmac hash now1 env1 req (some key) s).2) := by
  have hpw := handleXero_records_fingerprint hmac hash now1 env1 req key s payload
    hp hkey hsig hev hnew
  refine handleXero_duplicate hmac hash now2 env2 req key _ payload hp hkey hsig hev ?_
  rw [generateWebhookId_time_independent hash req.rawBody payload n hseq hn now2 now1, hpw]
  exact List.elem_eq_true_of_mem (mem_cleanup_append _ _)

/-- C4 amended: for a signed payload with a non-empty events array whose
`lastEventSequence` is present and nonzero (the fingerprint is then
time-independent), submitting the identical raw payload a second time is
recognized by the fingerprint recorded on the first submission: the second
submission is answered with the 200 `duplicate ignored` response and leaves
the state exactly as the first submission left it — the business logic ran
exactly once. (A parsable payload with an absent or zero sequence number
falls back to `Date.now()` in the fingerprint and is *not* recognized — see
the counterexample.) -/
theorem claim4_amended_identical_payload_once (hmac : String → String → List Nat)
    (hash : String → String) (now1 now2 : Nat) (env1 env2 : Nat → EventEnv)
    (req : WebhookRequest) (key : String) (s : SysState) (payload : XeroPayload) (n : Nat)
    (hp : req.parsed = some payload) (hkey : key ≠ "")
    (hsig : verifyXeroSignature hmac req.rawBody req.signature (some key) = true)
    (hev : payload.events.isEmpty = false)
    (hseq : payload.lastEventSequence = some n) (hn : n ≠ 0)
    (hnew : s.processedWebhooks.contains
      (generateWebhookId hash now1 req.rawBody (some payload)) = false) :
    handleXeroWebhook hmac hash now2 env2 req (some key)
        (handleXeroWebhook hmac hash now1 env1 req (some key) s).2
      = (WebhookResponse.duplicateIgnored,
          (handleXeroWebhook hmac hash now1 env1 req (some key) s).2) :=
  second_delivery_duplicate hmac hash now1 now2 env1 env2 req key s payload n
    hp hkey hsig hev hseq hn hnew

/-- A digest function for the concrete dedup scenarios: one zero byte,
whose canonical base64 encoding is `AA==`. -/
def cxHmac : String → String → List Nat := fun _ _ => [0]

/-- Oracle inputs for the concrete dedup scenarios: the token refresh (if
one happens) answers HTTP 500, the invoice fetch would fail, the gateway
would throw. -/
def cxEnv : Nat → EventEnv :=
  fun _ => { refresh := RefreshHttp.httpErr 500, fetch := FetchOutcome.fail 404,
             send := SendOutcome.err "down" }

/-- The empty starting state. -/
def emptyState : SysState :=
  { processedWebhooks := [], users := [], connections := [], reviewRequests := [],
    smsLog := [] }

/-- An event the handler skips (not an invoice event). -/
def paymentEvent : XeroEvent :=
  { eventCategory := "PAYMENT", eventType := "UPDATE", tenantId := "t", resourceId := "r" }

/-- A payload with a truthy `lastEventSequence`. -/
def seqPayload : XeroPayload := { lastEventSequence := some 7, events := [paymentEvent] }

/-- The signed request delivering `seqPayload`. -/
def seqReq : WebhookRequest :=
  { rawBody := "raw", parsed := some seqPayload, signature := some "AA==" }

/-- A payload identical to `seqPayload` except that `lastEventSequence` is
absent. -/
def noSeqPayload : XeroPayload := { lastEventSequence := none, events := [paymentEvent] }

/-- The signed request delivering `noSeqPayload`. -/
def noSeqReq : WebhookRequest :=
  { rawBody := "raw", parsed := some noSeqPayload, signature := some "AA==" }

/-- C4 witness: the amended theorem at concrete inputs — the identical
second delivery of a sequence-numbered payload is answered `duplicate
ignored` with the state unchanged. -/
theorem claim4_amended_witness :
    handleXeroWebhook cxHmac id 2 cxEnv seqReq (some "k")
        (handleXeroWebhook cxHmac id 1 cxEnv seqReq (some "k") emptyState).2
      = (WebhookResponse.duplicateIgnored,
          (handleXeroWebhook cxHmac id 1 cxEnv seqReq (some "k") emptyState).2) :=
  claim4_amended_identical_payload_once cxHmac id 1 2 cxEnv cxEnv seqReq "k" emptyState
    seqPayload 7 rfl (by decide) (by decide) rfl rfl (by decide) (by decide)

/-- C4 counterexample: a valid-signature payload with a non-empty events
array but no `lastEventSequence` field is *not* recognized on its second
submission: the fingerprint mixes in `Date.now()`, so the identical raw
payload re-submitted at a later time is processed again (answered
`processed`, not `duplicate ignored`). -/
theorem claim4_counterexample :
    (handleXeroWebhook cxHmac id 2 cxEnv noSeqReq (some "k")
        (handleXeroWebhook cxHmac id 1 cxEnv noSeqReq (some "k") emptyState).2).1
      ≠ WebhookResponse.duplicateIgnored ∧
    (handleXeroWebhook cxHmac id 2 cxEnv noSeqReq (some "k")
        (handleXeroWebhook cxHmac id 1 cxEnv noSeqReq (some "k") emptyState).2).1
      = WebhookResponse.processed 1 := by
  constructor
  · decide
  · decide

/-- C10 amended: on a fresh delivery that reaches event processing, the
fingerprint is recorded before the event loop runs and is still in the
dedup set afterwards no matter how the loop ends — a throw included (the
`catch` answers 500 without removing it). A later redelivery computing the
same fingerprint — guaranteed for identical payloads when
`lastEventSequence` is present and nonzero, and as long as the entry has
not been evicted by the 1000-to-500 trim — is answered `duplicate ignored`
with no further processing. (For a payload without a sequence number the
redelivered fingerprint differs — see the counterexample.) -/
theorem claim10_amended_fingerprint_recorded_before_processing
    (hmac : String → String → List Nat) (hash : String → String) (now : Nat)
    (env : Nat → EventEnv) (req : WebhookRequest) (key : String) (s : SysState)
    (payload : XeroPayload)
    (hp : req.parsed = some payload) (hkey : key ≠ "")
    (hsig : verifyXeroSignature hmac req.rawBody req.signature (some key) = true)
    (hev : payload.events.isEmpty = false)
    (hnew : s.processedWebhooks.contains
      (generateWebhookId hash now req.rawBody (some payload)) = false) :
    (handleXeroWebhook hmac hash now env req (some key) s).2.processedWebhooks
        = cleanupProcessedWebhooks (s.processedWebhooks
            ++ [generateWebhookId hash now req.rawBody (some payload)]) ∧
    generateWebhookId hash now req.rawBody (some payload)
        ∈ (handleXeroWebhook hmac hash now env req (some key) s).2.processedWebhooks ∧
    (∀ (n now2 : Nat) (env2 : Nat → EventEnv),
      payload.lastEventSequence = some n → n ≠ 0 →
      handleXeroWebhook hmac hash now2 env2 req (some key)
          (handleXeroWebhook hmac hash now env req (some key) s).2
        = (WebhookResponse.duplicateIgnored,
            (handleXeroWebhook hmac hash now env req (some key) s).2)) := by
  have hpw := handleXero_records_fingerprint hmac hash now env req key s payload
    hp hkey hsig hev hnew
  refine ⟨hpw, ?_, ?_⟩
  · rw [hpw]
    exact mem_cleanup_append _ _
  · intro n now2 env2 hseq hn
    exact second_delivery_duplicate hmac hash now now2 env env2 req key s payload n
      hp hkey hsig hev hseq hn hnew

/-- An active connection whose token already expired, so the event loop
must refresh — and the refresh fails with HTTP 500 under `cxEnv`. -/
def expiredConn : XeroConnRec :=
  { userId := 1, tenantId := "t", isActive := true, accessToken := "a", refreshToken := "r", tokenExpiresAt := 0 }

/-- Starting state for the C10 scenario. -/
def c10State : SysState :=
  { processedWebhooks := [], users := [], connections := [expiredConn],
    reviewRequests := [], smsLog := [] }

/-- An invoice event routed to `expiredConn`'s tenant. -/
def invoiceEvent : XeroEvent :=
  { eventCategory := "INVOICE", eventType := "UPDATE", tenantId := "t",
    resourceId := "inv-9" }

/-- A sequence-less payload carrying the invoice event. -/
def c10Payload : XeroPayload := { lastEventSequence := none, events := [invoiceEvent] }

/-- The signed request delivering `c10Payload`. -/
def c10Req : WebhookRequest :=
  { rawBody := "raw", parsed := some c10Payload, signature := some "AA==" }

/-- C10 counterexample: event processing throws (the token refresh fails)
and the handler answers 500 with the fingerprint recorded — but the later
redelivery of the identical payload is *not* answered `duplicate ignored`,
because the payload has no `lastEventSequence` and its fingerprint at the
later time differs. -/
theorem claim10_counterexample :
    (handleXeroWebhook cxHmac id 1 cxEnv c10Req (some "k") c10State).1
      = WebhookResponse.serverError ∧
    (handleXeroWebhook cxHmac id 2 cxEnv c10Req (some "k")
        (handleXeroWebhook cxHmac id 1 cxEnv c10Req (some "k") c10State).2).1
      ≠ WebhookResponse.duplicateIgnored := by
  constructor
  · decide
  · decide

/-- C10 witness: the amended theorem at concrete inputs — the fingerprint
of a delivered payload is in the dedup set after handling. -/
theorem claim10_amended_witness :
    generateWebhookId id 1 "raw" (some seqPayload)
      ∈ (handleXeroWebhook cxHmac id 1 cxEnv seqReq (some "k") emptyState).2.processedWebhooks :=
  (claim10_amended_fingerprint_recorded_before_processing cxHmac id 1 cxEnv seqReq "k"
    emptyState seqPayload rfl (by decide) (by decide) rfl (by decide)).2.1

/-! ## The at-most-one-sent invariant: C2 -/

/-- No classified error status is the string `sent`. -/
theorem classifySmsError_ne_sent (e : SmsError) : classifySmsError e ≠ "sent" := by
  cases e <;> simp only [classifySmsError] <;> repeat' split
  all_goals decide

/-- Appending splits the sent count. -/
theorem sentCountL_append (l : List ReviewRequestRec) (r : ReviewRequestRec) (inv : String) :
    sentCountL (l ++ [r]) inv = sentCountL l inv + sentCountL [r] inv := by
  simp [sentCountL, List.filter_append]

/-- A non-`sent` record contributes nothing to any sent count. -/
theorem sentCountL_singleton_not_sent (r : ReviewRequestRec) (h : r.smsStatus ≠ "sent")
    (inv : String) : sentCountL [r] inv = 0 := by
  simp [sentCountL, List.filter, h]

/-- A singleton contributes at most one. -/
theorem sentCountL_singleton_le_one (r : ReviewRequestRec) (inv : String) :
    sentCountL [r] inv ≤ 1 := by
  simp only [sentCountL, List.filter]
  split <;> simp

/-- A record for another invoice contributes nothing to this one. -/
theorem sentCountL_singleton_other (r : ReviewRequestRec) (inv : String)
    (h : r.xeroInvoiceId ≠ inv) : sentCountL [r] inv = 0 := by
  simp [sentCountL, List.filter, h]

/-- If the pre-send existence query finds nothing, the sent count for that
invoice is zero. -/
theorem sentCountL_eq_zero_of_find?_none (l : List ReviewRequestRec) (invId : String)
    (h : l.find? (fun r => r.xeroInvoiceId = invId && r.smsStatus = "sent") = none) :
    sentCountL l invId = 0 := by
  rw [List.find?_eq_none] at h
  simp only [sentCountL, List.length_eq_zero]
  rw [List.filter_eq_nil_iff]
  exact h

/-- The invoice processor preserves the at-most-one-sent invariant: the
only `sent` record it can append is guarded by the existence check. -/
theorem processInvoiceUpdate_SentInvariant (now uid : Nat) (user : UserRec) (invId : String)
    (fetch : FetchOutcome) (send : SendOutcome) (s : SysState)
    (h : SentInvariant s) :
    SentInvariant (processInvoiceUpdate now uid user invId fetch send s) := by
  simp only [processInvoiceUpdate]
  split
  · exact h
  · split
    · split
      · exact h
      · rename_i hfind
        rw [Option.not_isSome_iff_eq_none] at hfind
        split
        · -- gateway success: a `sent` record may be persisted
          intro inv
          unfold saveReviewRequestOrCatch
          split
          · show sentCountL ((sendReviewRequestSMS _ _ _ _ _ _ _).1.reviewRequests
              ++ [_]) inv ≤ 1
            rw [(sendSMS_parts _ _ _ _ _ _ _).2.2, sentCountL_append]
            by_cases hi : inv = invId
            · subst hi
              rw [sentCountL_eq_zero_of_find?_none _ _ hfind]
              simpa using sentCountL_singleton_le_one _ _
            · rw [sentCountL_singleton_other _ _ (fun hh => hi hh.symm)]
              simpa using h inv
          · rw [(sendSMS_parts _ _ _ _ _ _ _).2.2]
            exact h inv
        · -- send failed: the classified status is never `sent`
          intro inv
          unfold saveReviewRequestOrCatch
          split
          · show sentCountL ((sendReviewRequestSMS _ _ _ _ _ _ _).1.reviewRequests
              ++ [_]) inv ≤ 1
            rw [(sendSMS_parts _ _ _ _ _ _ _).2.2, sentCountL_append,
              sentCountL_singleton_not_sent _ (classifySmsError_ne_sent _) inv]
            simpa using h inv
          · rw [(sendSMS_parts _ _ _ _ _ _ _).2.2]
            exact h inv
    · exact h

/-- The invariant only depends on the review-request collection. -/
theorem SentInvariant_of_reviewRequests_eq (s s' : SysState)
    (h : s'.reviewRequests = s.reviewRequests) (hs : SentInvariant s) : SentInvariant s' := by
  intro inv
  rw [h]
  exact hs inv

/-- The event loop preserves the invariant, also when it throws. -/
theorem runEvents_SentInvariant (now : Nat) (env : Nat → EventEnv) :
    ∀ (events : List XeroEvent) (i : Nat) (s : SysState), SentInvariant s →
      SentInvariant (exceptState (runEvents now env i events s)) := by
  intro events
  induction events with
  | nil => intro i s h; exact h
  | cons e rest ih =>
    intro i s h
    simp only [runEvents]
    split
    · split
      · exact ih (i + 1) s h
      · split
        · exact SentInvariant_of_reviewRequests_eq _ _
            (getValid_parts now (env i).refresh _ s).2.2.1 h
        · split
          · exact ih (i + 1) _ (SentInvariant_of_reviewRequests_eq _ _
              (getValid_parts now (env i).refresh _ s).2.2.1 h)
          · exact ih (i + 1) _ (processInvoiceUpdate_SentInvariant _ _ _ _ _ _ _
              (SentInvariant_of_reviewRequests_eq _ _
                (getValid_parts now (env i).refresh _ s).2.2.1 h))
    · exact ih (i + 1) s h

/-- Specialization of the loop invariant to a normally-returning loop. -/
theorem runEvents_ok_SentInvariant (now : Nat) (env : Nat → EventEnv)
    (events : List XeroEvent) (i : Nat) (s s2 : SysState)
    (heq : runEvents now env i events s = Except.ok s2) (h : SentInvariant s) :
    SentInvariant s2 := by
  have h2 := runEvents_SentInvariant now env events i s h
  rw [heq] at h2
  exact h2

/-- Specialization of the loop invariant to a throwing loop. -/
theorem runEvents_error_SentInvariant (now : Nat) (env : Nat → EventEnv)
    (events : List XeroEvent) (i : Nat) (s s2 : SysState)
    (heq : runEvents now env i events s = Except.error s2) (h : SentInvariant s) :
    SentInvariant s2 := by
  have h2 := runEvents_SentInvariant now env events i s h
  rw [heq] at h2
  exact h2

/-- The Xero webhook handler preserves the invariant. -/
theorem handleXero_SentInvariant (hmac : String → String → List Nat)
    (hash : String → String) (now : Nat) (env : Nat → EventEnv) (req : WebhookRequest)
    (key : Option String) (s : SysState) (h : SentInvariant s) :
    SentInvariant (handleXeroWebhook hmac hash now env req key s).2 := by
  simp only [handleXeroWebhook]
  repeat' split
  all_goals try exact h
  all_goals rename_i s2 heq
  all_goals
    first
    | exact runEvents_ok_SentInvariant _ _ _ _ _ _ heq
        (SentInvariant_of_reviewRequests_eq _ _ rfl h)
    | exact runEvents_error_SentInvariant _ _ _ _ _ _ heq
        (SentInvariant_of_reviewRequests_eq _ _ rfl h)

/-- The Stripe handler never touches the review requests. -/
theorem handleStripe_reviewRequests (v : StripeVerify) (s : SysState) :
    (handleStripeWebhook v s).2.reviewRequests = s.reviewRequests := by
  simp only [handleStripeWebhook]
  repeat' split
  all_goals rfl

/-- C2: for every account and external invoice id, any sequential execution
of webhook deliveries keeps at most one `sent` outcome record per external
invoice id (the pre-send existence check is the guard); and whenever a
`sent` record for an invoice already exists, processing an event for that
invoice changes nothing — no gateway call, no new record, no debit. -/
theorem claim2_at_most_one_sent :
    (∀ (ops : List Op) (s : SysState), SentInvariant s → SentInvariant (execOps s ops)) ∧
    (∀ (now uid : Nat) (user : UserRec) (invId : String) (fetch : FetchOutcome)
        (send : SendOutcome) (s : SysState),
      (∃ r ∈ s.reviewRequests, r.xeroInvoiceId = invId ∧ r.smsStatus = "sent") →
      processInvoiceUpdate now uid user invId fetch send s = s) := by
  constructor
  · intro ops
    induction ops with
    | nil => intro s h; exact h
    | cons op rest ih =>
      intro s h
      show SentInvariant (execOps (applyOp s op) rest)
      refine ih _ ?_
      cases op with
      | xero hmac hash now env req key =>
        exact handleXero_SentInvariant _ _ _ _ _ _ _ h
      | stripe v =>
        exact SentInvariant_of_reviewRequests_eq _ _ (handleStripe_reviewRequests v s) h
  · intro now uid user invId fetch send s hex
    obtain ⟨r, hr, hrinv, hrsent⟩ := hex
    have hsome : (s.reviewRequests.find?
        (fun x => x.xeroInvoiceId = invId && x.smsStatus = "sent")).isSome = true := by
      rw [List.find?_isSome]
      exact ⟨r, hr, by simp [hrinv, hrsent]⟩
    simp only [processInvoiceUpdate]
    repeat' split
    all_goals first
      | rfl
      | (exfalso; simp_all)

/-- A previously persisted `sent` record for invoice `inv-1`. -/
def aSentRecord : ReviewRequestRec :=
  { userId := 1, xeroInvoiceId := "inv-1", invoiceNumber := "INV-0001", customerName := "Jane Citizen", customerEmail := "jane@example.com", customerPhone := some "+61400803880", smsStatus := "sent", emailStatus := "pending", twilioSid := some "mid", sentAt := some 0 }

/-- A state that already holds that `sent` record. -/
def alreadySentState : SysState := { emptyState with reviewRequests := [aSentRecord] }

/-- C2 witness: the preservation theorem applied to a concrete execution
from the empty state, and the skip theorem applied at a state that already
holds a `sent` record. -/
theorem claim2_witness :
    SentInvariant (execOps emptyState
      [Op.xero cxHmac id 1 cxEnv seqReq (some "k")]) ∧
    processInvoiceUpdate 0 1 paywallUser "inv-1"
        (FetchOutcome.ok paywallInvoice) (SendOutcome.ok "mid") alreadySentState
      = alreadySentState :=
  ⟨claim2_at_most_one_sent.1 [Op.xero cxHmac id 1 cxEnv seqReq (some "k")] emptyState
      (fun inv => by simp [sentCountL, emptyState]),
    claim2_at_most_one_sent.2 0 1 paywallUser "inv-1" (FetchOutcome.ok paywallInvoice)
      (SendOutcome.ok "mid") alreadySentState
      ⟨aSentRecord, by simp [alreadySentState], rfl, rfl⟩⟩

/-! ## The non-negative balance ledger: C5 -/

/-- The balance invariant only depends on the user documents. -/
theorem BalanceInvariant_of_users_eq (s s' : SysState) (h : s'.users = s.users)
    (hs : BalanceInvariant s) : BalanceInvariant s' := by
  intro p hp
  rw [h] at hp
  exact hs p hp

/-- Saving a user document with a non-negative balance keeps the invariant. -/
theorem updateUser_BalanceInvariant (s : SysState) (uid : Nat) (u : UserRec)
    (h : BalanceInvariant s) (hu : 0 ≤ u.smsBalance) :
    BalanceInvariant (updateUser s uid u) := by
  intro p hp
  simp only [updateUser, List.mem_map] at hp
  obtain ⟨q, hq, rfl⟩ := hp
  split
  · exact hu
  · exact h q hq

/-- A found user document is one of the stored documents. -/
theorem findUser_mem (s : SysState) (uid : Nat) (u : UserRec)
    (h : findUser s uid = some u) : (uid, u) ∈ s.users := by
  unfold findUser at h
  cases hf : s.users.find? (fun p => p.1 = uid) with
  | none => rw [hf] at h; simp at h
  | some p =>
    rw [hf] at h
    have hp := List.find?_some hf
    have hm := List.mem_of_find?_eq_some hf
    obtain ⟨p1, p2⟩ := p
    simp only [decide_eq_true_eq] at hp
    simp only [Option.map] at h
    cases h
    rw [← hp]
    exact hm

/-- List form: overwriting the found entry is visible to the next lookup. -/
theorem assoc_find_update (uid : Nat) (u : UserRec) :
    ∀ (l : List (Nat × UserRec)) (u0 : UserRec),
      Option.map (fun p => p.2) (l.find? (fun p => p.1 = uid)) = some u0 →
      Option.map (fun p => p.2)
          ((l.map (fun p => if p.1 = uid then (uid, u) else p)).find? (fun p => p.1 = uid))
        = some u := by
  intro l
  induction l with
  | nil => intro u0 h; simp at h
  | cons p rest ih =>
    intro u0 h
    by_cases hp : p.1 = uid
    · simp [List.find?_cons, hp]
    · rw [List.find?_cons_of_neg _ (by simp [hp])] at h
      simp only [List.map_cons, if_neg hp]
      rw [List.find?_cons_of_neg _ (by simp [hp])]
      exact ih u0 h

/-- Overwriting the found user document is visible to the next lookup. -/
theorem findUser_updateUser (s : SysState) (uid : Nat) (u0 u : UserRec)
    (h : findUser s uid = some u0) :
    findUser (updateUser s uid u) uid = some u :=
  assoc_find_update uid u s.users u0 h

/-- The SMS sender preserves the balance invariant: the only balance write
is the debit, which is pre-checked against the computed cost. -/
theorem sendSMS_BalanceInvariant (a b c d : String) (uid : Nat) (send : SendOutcome)
    (s : SysState) (h : BalanceInvariant s) :
    BalanceInvariant ((sendReviewRequestSMS a b c d uid send s).1) := by
  simp only [sendReviewRequestSMS]
  repeat' split
  all_goals try exact h
  all_goals try exact BalanceInvariant_of_users_eq _ _ rfl h
  all_goals {
    refine updateUser_BalanceInvariant _ _ _ (BalanceInvariant_of_users_eq _ _ rfl h) ?_
    rw [sub_nonneg]
    exact not_lt.mp (by assumption)
  }

/-- The invoice processor preserves the balance invariant. -/
theorem processInvoiceUpdate_BalanceInvariant (now uid : Nat) (user : UserRec)
    (invId : String) (fetch : FetchOutcome) (send : SendOutcome) (s : SysState)
    (h : BalanceInvariant s) :
    BalanceInvariant (processInvoiceUpdate now uid user invId fetch send s) := by
  simp only [processInvoiceUpdate]
  repeat' split
  all_goals try exact h
  all_goals {
    refine BalanceInvariant_of_users_eq _ _ (saveOrCatch_parts _ _).2.2.1 ?_
    exact sendSMS_BalanceInvariant _ _ _ _ _ _ _ h
  }

/-- The event loop preserves the balance invariant. -/
theorem runEvents_BalanceInvariant (now : Nat) (env : Nat → EventEnv) :
    ∀ (events : List XeroEvent) (i : Nat) (s : SysState), BalanceInvariant s →
      BalanceInvariant (exceptState (runEvents now env i events s)) := by
  intro events
  induction events with
  | nil => intro i s h; exact h
  | cons e rest ih =>
    intro i s h
    simp only [runEvents]
    split
    · split
      · exact ih (i + 1) s h
      · split
        · exact BalanceInvariant_of_users_eq _ _
            (getValid_parts now (env i).refresh _ s).2.1 h
        · split
          · exact ih (i + 1) _ (BalanceInvariant_of_users_eq _ _
              (getValid_parts now (env i).refresh _ s).2.1 h)
          · exact ih (i + 1) _ (processInvoiceUpdate_BalanceInvariant _ _ _ _ _ _ _
              (BalanceInvariant_of_users_eq _ _
                (getValid_parts now (env i).refresh _ s).2.1 h))
    · exact ih (i + 1) s h

/-- Specialization of the loop balance invariant to a normal return. -/
theorem runEvents_ok_BalanceInvariant (now : Nat) (env : Nat → EventEnv)
    (events : List XeroEvent) (i : Nat) (s s2 : SysState)
    (heq : runEvents now env i events s = Except.ok s2) (h : BalanceInvariant s) :
    BalanceInvariant s2 := by
  have h2 := runEvents_BalanceInvariant now env events i s h
  rw [heq] at h2
  exact h2

/-- Specialization of the loop balance invariant to a throw. -/
theorem runEvents_error_BalanceInvariant (now : Nat) (env : Nat → EventEnv)
    (events : List XeroEvent) (i : Nat) (s s2 : SysState)
    (heq : runEvents now env i events s = Except.error s2) (h : BalanceInvariant s) :
    BalanceInvariant s2 := by
  have h2 := runEvents_BalanceInvariant now env events i s h
  rw [heq] at h2
  exact h2

/-- The Xero handler preserves the balance invariant. -/
theorem handleXero_BalanceInvariant (hmac : String → String → List Nat)
    (hash : String → String) (now : Nat) (env : Nat → EventEnv) (req : WebhookRequest)
    (key : Option String) (s : SysState) (h : BalanceInvariant s) :
    BalanceInvariant (handleXeroWebhook hmac hash now env req key s).2 := by
  simp only [handleXeroWebhook]
  repeat' split
  all_goals try exact h
  all_goals rename_i s2 heq
  all_goals
    first
    | exact runEvents_ok_BalanceInvariant _ _ _ _ _ _ heq
        (BalanceInvariant_of_users_eq _ _ rfl h)
    | exact runEvents_error_BalanceInvariant _ _ _ _ _ _ heq
        (BalanceInvariant_of_users_eq _ _ rfl h)

/-- A checkout-session credit is at least the $10 minimum. -/
theorem checkout_credit_ge_ten (uid : Nat) (amount : ℚ) (m : CheckoutMetadata)
    (h : createCheckoutSession uid amount = some m) :
    10 ≤ m.creditAmount ∧ m.userId = uid := by
  unfold createCheckoutSession at h
  split at h
  · simp at h
  · rename_i hno
    push_neg at hno
    cases h
    exact ⟨hno.2, rfl⟩

/-- The Stripe handler preserves the balance invariant whenever the credit
metadata was produced by the checkout-session route. -/
theorem handleStripe_BalanceInvariant (v : StripeVerify) (s : SysState)
    (hv : CreditsFromCheckout (Op.stripe v)) (h : BalanceInvariant s) :
    BalanceInvariant (handleStripeWebhook v s).2 := by
  cases v with
  | badSignature m => exact h
  | ok t uid amt =>
    simp only [handleStripeWebhook]
    split
    · rename_i ht
      obtain ⟨a, ha⟩ := hv ht
      have hamt := (checkout_credit_ge_ten uid a _ ha).1
      split
      · exact h
      · rename_i u hfind
        refine updateUser_BalanceInvariant _ _ _ h ?_
        have hu : 0 ≤ u.smsBalance := h (uid, u) (findUser_mem s uid u hfind)
        have : (10 : ℚ) ≤ amt := hamt
        show 0 ≤ u.smsBalance + amt
        linarith
    · exact h

/-- C5: the balance ledger never goes negative. The debit path refuses an
insufficient balance before contacting the gateway (state unchanged); an
unsuccessful send debits nothing; a successful send debits exactly the
computed per-message cost, which the pre-check bounded by the balance; the
payment-credit path only adds amounts produced by the checkout route,
which are at least $10 and are added to both the balance and the lifetime
total; and every sequential execution whose credits come from checkout
sessions preserves non-negativity of every stored balance. -/
theorem claim5_balance_never_negative :
    (∀ (phone name busName url : String) (uid : Nat) (send : SendOutcome) (s : SysState)
        (user : UserRec), findUser s uid = some user →
      (SmsCharacterUtils.calculateSMSCost (renderTemplate
          (if user.smsTemplateMessage ≠ "" then user.smsTemplateMessage else defaultSmsTemplate)
          name busName url)).stats.isValid = true →
      user.smsBalance < (SmsCharacterUtils.calculateSMSCost (renderTemplate
          (if user.smsTemplateMessage ≠ "" then user.smsTemplateMessage else defaultSmsTemplate)
          name busName url)).cost →
      sendReviewRequestSMS phone name busName url uid send s
        = (s, Except.error (SmsError.insufficientBalance "Insufficient balance."))) ∧
    (∀ (phone name busName url : String) (uid : Nat) (send : SendOutcome) (s : SysState)
        (e : SmsError),
      (sendReviewRequestSMS phone name busName url uid send s).2 = Except.error e →
      ((sendReviewRequestSMS phone name busName url uid send s).1).users = s.users) ∧
    (∀ (phone name busName url : String) (uid : Nat) (send : SendOutcome) (s : SysState)
        (user : UserRec) (mid : String) (cost : ℚ),
      findUser s uid = some user →
      (sendReviewRequestSMS phone name busName url uid send s).2 = Except.ok (mid, cost) →
      cost ≤ user.smsBalance ∧ 0 ≤ cost ∧ send = SendOutcome.ok mid ∧
      cost = (SmsCharacterUtils.calculateSMSCost (renderTemplate
          (if user.smsTemplateMessage ≠ "" then user.smsTemplateMessage else defaultSmsTemplate)
          name busName url)).cost ∧
      findUser ((sendReviewRequestSMS phone name busName url uid send s).1) uid
        = some { user with smsBalance := user.smsBalance - cost }) ∧
    (∀ (uid : Nat) (amount : ℚ) (m : CheckoutMetadata),
      createCheckoutSession uid amount = some m →
      0 ≤ m.creditAmount ∧
      ∀ (s : SysState) (user : UserRec), findUser s m.userId = some user →
        findUser (handleStripeWebhook (StripeVerify.ok "checkout.session.completed"
            m.userId m.creditAmount) s).2 m.userId
          = some { user with
              smsBalance := user.smsBalance + m.creditAmount
              totalSMSCredits := user.totalSMSCredits + m.creditAmount }) ∧
    (∀ (ops : List Op) (s : SysState), (∀ op ∈ ops, CreditsFromCheckout op) →
      BalanceInvariant s → BalanceInvariant (execOps s ops)) := by
  refine ⟨?_, ?_, ?_, ?_, ?_⟩
  · intro phone name busName url uid send s user hfind hvalid hlt
    simp only [sendReviewRequestSMS, hfind, hvalid, Bool.not_true, Bool.false_eq_true,
      if_false, ite_false]
    rw [if_pos hlt]
  · intro phone name busName url uid send s e
    simp only [sendReviewRequestSMS]
    repeat' split
    all_goals intro he
    all_goals first
      | rfl
      | (exfalso; simp at he)
  · intro phone name busName url uid send s user mid cost hfind hok
    simp only [sendReviewRequestSMS, hfind] at hok ⊢
    generalize hT : (if user.smsTemplateMessage ≠ "" then user.smsTemplateMessage
      else defaultSmsTemplate) = tpl at hok ⊢
    split at hok
    · exact absurd hok (by simp)
    · split at hok
      · exact absurd hok (by simp)
      · rename_i hvalid hlt
        split at hok
        · exact absurd hok (by simp)
        · rename_i mid'
          simp only [Except.ok.injEq, Prod.mk.injEq] at hok
          obtain ⟨hm, hc⟩ := hok
          subst hm
          refine ⟨?_, ?_, rfl, hc.symm, ?_⟩
          · rw [← hc]
            exact not_lt.mp hlt
          · rw [← hc, calculateSMSCost_cost_eq]
            positivity
          · rw [if_neg hvalid, if_neg hlt, ← hc]
            exact findUser_updateUser _ _ user _ hfind
  · intro uid amount m hcs
    have h10 := checkout_credit_ge_ten uid amount m hcs
    refine ⟨by linarith [h10.1], ?_⟩
    intro s user hfind
    simp only [handleStripeWebhook, if_pos rfl, hfind]
    exact findUser_updateUser _ _ user _ hfind
  · intro ops
    induction ops with
    | nil => intro s _ h; exact h
    | cons op rest ih =>
      intro s hops h
      show BalanceInvariant (execOps (applyOp s op) rest)
      refine ih _ (fun o ho => hops o (List.mem_cons_of_mem _ ho)) ?_
      cases op with
      | xero hmac hash now env req key =>
        exact handleXero_BalanceInvariant _ _ _ _ _ _ _ h
      | stripe v =>
        exact handleStripe_BalanceInvariant v s (hops _ (List.mem_cons_self _ _)) h

/-- C5 witness: the theorem applied at concrete inputs — a $10 top-up
credits $10, and a concrete execution from the empty state keeps all
balances non-negative. -/
theorem claim5_witness :
    (0 : ℚ) ≤ ({ userId := 1, creditAmount := 10 : CheckoutMetadata }).creditAmount ∧
    BalanceInvariant (execOps emptyState
      [Op.stripe (StripeVerify.ok "checkout.session.completed" 1 10)]) :=
  ⟨(claim5_balance_never_negative.2.2.2.1 1 10 { userId := 1, creditAmount := 10 }
      (by norm_num [createCheckoutSession])).1,
    claim5_balance_never_negative.2.2.2.2
      [Op.stripe (StripeVerify.ok "checkout.session.completed" 1 10)] emptyState
      (by
        intro op hop
        simp only [List.mem_singleton] at hop
        subst hop
        intro _
        exact ⟨10, by norm_num [createCheckoutSession]⟩)
      (by intro p hp; simp [emptyState] at hp)⟩

end Zeus
